import Mathlib

/-! Fuzz-Cola: a verification development of the fuzz pedal signal chain.

The definitions below embed `Source/PluginProcessor.h` and `Source/PluginProcessor.cpp`.

Conventions of the embedding:

* `float` and `double` values are real numbers: rounding, overflow, NaN and the
  saturation of `std::tanh` to exactly `±1` in single precision are not represented.
* Mutable C++ objects are values; a member function that mutates `*this` returns the
  new object, and a function that also produces samples returns a pair.
* The JUCE classes the processor is built from (`juce::dsp::Gain`, `juce::SmoothedValue`,
  `juce::dsp::IIR::Filter`, `juce::dsp::IIR::Coefficients`, `juce::dsp::WaveShaper`,
  `juce::dsp::ProcessorChain`, `juce::jmap`, `juce::jlimit`, `juce::Decibels`) belong to the
  framework and not to the repository; they are written out here after the framework's
  behaviour so that the repository's code can be followed line by line.
* The denormal handling of the framework (`ScopedNoDenormals`, `snapToZero`) only concerns
  floating point and has no counterpart here.
-/

namespace FuzzCola

noncomputable section

/-! ## Framework helpers -/

/-- Framework function `juce::jlimit (lowerLimit, upperLimit, valueToConstrain)`. -/
def jlimit (lowerLimit upperLimit valueToConstrain : ℝ) : ℝ :=
  if valueToConstrain < lowerLimit then lowerLimit
  else if upperLimit < valueToConstrain then upperLimit
  else valueToConstrain

/-- Framework function `juce::jmap (value0To1, targetRangeMin, targetRangeMax)`. -/
def jmap (value0To1 targetRangeMin targetRangeMax : ℝ) : ℝ :=
  targetRangeMin + value0To1 * (targetRangeMax - targetRangeMin)

/-- Framework function `juce::jmap (sourceValue, sourceRangeMin, sourceRangeMax,
targetRangeMin, targetRangeMax)`, the five-argument overload. -/
def jmapRange (sourceValue sourceRangeMin sourceRangeMax targetRangeMin targetRangeMax : ℝ) : ℝ :=
  targetRangeMin
    + ((targetRangeMax - targetRangeMin) * (sourceValue - sourceRangeMin))
        / (sourceRangeMax - sourceRangeMin)

/-- Constant `defaultMinusInfinitydB` of `juce::Decibels`. -/
def defaultMinusInfinitydB : ℝ := -100

/-- Framework function `juce::Decibels::decibelsToGain (decibels)`. -/
def decibelsToGain (decibels : ℝ) : ℝ :=
  if decibels > defaultMinusInfinitydB then (10 : ℝ) ^ (decibels * 0.05) else 0

/-- Framework function `juce::Decibels::gainToDecibels (gain)`. -/
def gainToDecibels (gain : ℝ) : ℝ :=
  if gain > 0 then max defaultMinusInfinitydB (Real.logb 10 gain * 20)
  else defaultMinusInfinitydB

/-! ## Shaping functions (`prepareToPlay`, the two lambdas) -/

/-- Stage 1 lambda assigned to `clip1.functionToUse`. -/
def shape1 (x : ℝ) : ℝ :=
  let vClip : ℝ := 0.9
  let drive : ℝ := 3.0
  let y : ℝ := drive * x / vClip
  vClip * Real.tanh y

/-- Stage 2 lambda assigned to `clip2.functionToUse`. -/
def shape2 (x : ℝ) : ℝ :=
  let vClip : ℝ := 0.8
  let drive : ℝ := 5.0
  let Offset : ℝ := 0.25
  let yOffset : ℝ := drive * (x + Offset)
  let center : ℝ := Real.tanh (drive * Offset)
  let shaped : ℝ := Real.tanh yOffset - center
  vClip * shaped

/-! ## `juce::SmoothedValue<float, Linear>` and `juce::dsp::Gain<float>` -/

/-- State of a linear `juce::SmoothedValue`. -/
structure SmoothedValue where
  currentValue : ℝ
  target : ℝ
  countdown : ℤ
  step : ℝ
  stepsToTarget : ℤ

namespace SmoothedValue

/-- Member `isSmoothing`: `countdown > 0`. -/
def isSmoothing (s : SmoothedValue) : Bool := decide (s.countdown > 0)

/-- Member `setCurrentAndTargetValue`. -/
def setCurrentAndTargetValue (s : SmoothedValue) (newValue : ℝ) : SmoothedValue :=
  { s with target := newValue, currentValue := newValue, countdown := 0 }

/-- Member `reset (numSteps)`. -/
def resetSteps (s : SmoothedValue) (numSteps : ℤ) : SmoothedValue :=
  setCurrentAndTargetValue { s with stepsToTarget := numSteps } s.target

/-- Member `reset (sampleRate, rampLengthInSeconds)`. -/
def reset (s : SmoothedValue) (sampleRate rampLengthInSeconds : ℝ) : SmoothedValue :=
  s.resetSteps (Int.floor (rampLengthInSeconds * sampleRate))

/-- Member `setTargetValue`. -/
def setTargetValue (s : SmoothedValue) (newValue : ℝ) : SmoothedValue :=
  if newValue = s.target then s
  else if s.stepsToTarget ≤ 0 then s.setCurrentAndTargetValue newValue
  else
    { s with
      target := newValue
      countdown := s.stepsToTarget
      step := (newValue - s.currentValue) / (s.stepsToTarget : ℝ) }

/-- Member `getNextValue`: the value returned and the state left behind. -/
def getNextValue (s : SmoothedValue) : ℝ × SmoothedValue :=
  if s.isSmoothing then
    let s1 : SmoothedValue := { s with countdown := s.countdown - 1 }
    let s2 : SmoothedValue :=
      if s1.isSmoothing then { s1 with currentValue := s1.currentValue + s1.step }
      else { s1 with currentValue := s1.target }
    (s2.currentValue, s2)
  else (s.target, s)

end SmoothedValue

/-- State of a `juce::dsp::Gain<float>`. -/
structure Gain where
  gain : SmoothedValue
  sampleRate : ℝ
  rampDurationSeconds : ℝ

namespace Gain

/-- Member `setGainLinear`. -/
def setGainLinear (g : Gain) (newGain : ℝ) : Gain :=
  { g with gain := g.gain.setTargetValue newGain }

/-- Member `setGainDecibels`. -/
def setGainDecibels (g : Gain) (newGainDecibels : ℝ) : Gain :=
  g.setGainLinear (decibelsToGain newGainDecibels)

/-- Member `getGainLinear`: the target of the ramp. -/
def getGainLinear (g : Gain) : ℝ := g.gain.target

/-- Member `getGainDecibels`. -/
def getGainDecibels (g : Gain) : ℝ := gainToDecibels g.getGainLinear

/-- Member `reset`. -/
def reset (g : Gain) : Gain :=
  if g.sampleRate > 0 then { g with gain := g.gain.reset g.sampleRate g.rampDurationSeconds }
  else g

/-- Member `setRampDurationSeconds`. -/
def setRampDurationSeconds (g : Gain) (newDurationSeconds : ℝ) : Gain :=
  if g.rampDurationSeconds = newDurationSeconds then g
  else reset { g with rampDurationSeconds := newDurationSeconds }

/-- Member `prepare`. -/
def prepare (g : Gain) (specSampleRate : ℝ) : Gain :=
  reset { g with sampleRate := specSampleRate }

/-- Member `process` on a single-channel block: `dst[i] = src[i] * gain.getNextValue()`. -/
def process (g : Gain) : List ℝ → List ℝ × Gain
  | [] => ([], g)
  | x :: xs =>
    let r := g.gain.getNextValue
    let rest := process { g with gain := r.2 } xs
    (x * r.1 :: rest.1, rest.2)

end Gain

/-! ## `juce::dsp::IIR` -/

/-- Class `juce::dsp::IIR::Coefficients<float>`: the raw coefficients, already divided by `a0`. -/
structure Coefficients where
  coefficients : List ℝ

namespace Coefficients

/-- Construction from the array `b0 .. bn, a0 .. an` (`assignImpl`): `a0` sits in the middle,
is left out, and every other entry is multiplied by its inverse. -/
def assign (values : List ℝ) : Coefficients :=
  let a0Index : ℕ := values.length / 2
  let a0 : ℝ := values.getD a0Index 0
  let a0Inv : ℝ := if a0 ≠ 0 then 1 / a0 else 0
  { coefficients :=
      ((List.range values.length).filter (fun i => decide (i ≠ a0Index))).map
        (fun i => values.getD i 0 * a0Inv) }

/-- Member `getFilterOrder`. -/
def getFilterOrder (c : Coefficients) : ℕ := (c.coefficients.length - 1) / 2

/-- Function `makeFirstOrderLowPass (sampleRate, frequency)`. -/
def makeFirstOrderLowPass (sampleRate frequency : ℝ) : Coefficients :=
  let n : ℝ := Real.tan (Real.pi * frequency / sampleRate)
  assign [n, n, n + 1, n - 1]

/-- Function `makeHighPass (sampleRate, frequency, Q)`. -/
def makeHighPassQ (sampleRate frequency Q : ℝ) : Coefficients :=
  let n : ℝ := Real.tan (Real.pi * frequency / sampleRate)
  let nSquared : ℝ := n * n
  let invQ : ℝ := 1 / Q
  let c1 : ℝ := 1 / (1 + invQ * n + nSquared)
  assign [c1, c1 * (-2), c1, 1, c1 * 2 * (nSquared - 1), c1 * (1 - invQ * n + nSquared)]

/-- Function `makeHighPass (sampleRate, frequency)`: the overload with `Q = 1 / sqrt 2`. -/
def makeHighPass (sampleRate frequency : ℝ) : Coefficients :=
  makeHighPassQ sampleRate frequency (1 / Real.sqrt 2)

/-- Function `makeLowShelf (sampleRate, cutOffFrequency, Q, gainFactor)`. -/
def makeLowShelf (sampleRate cutOffFrequency Q gainFactor : ℝ) : Coefficients :=
  let A : ℝ := max 0 (Real.sqrt gainFactor)
  let aminus1 : ℝ := A - 1
  let aplus1 : ℝ := A + 1
  let omega : ℝ := (2 * Real.pi * max cutOffFrequency 2) / sampleRate
  let coso : ℝ := Real.cos omega
  let beta : ℝ := Real.sin omega * Real.sqrt A / Q
  let aminus1TimesCoso : ℝ := aminus1 * coso
  assign [A * (aplus1 - aminus1TimesCoso + beta),
          A * 2 * (aminus1 - aplus1 * coso),
          A * (aplus1 - aminus1TimesCoso - beta),
          aplus1 + aminus1TimesCoso + beta,
          (-2) * (aminus1 + aplus1 * coso),
          aplus1 + aminus1TimesCoso - beta]

/-- Function `makeHighShelf (sampleRate, cutOffFrequency, Q, gainFactor)`. -/
def makeHighShelf (sampleRate cutOffFrequency Q gainFactor : ℝ) : Coefficients :=
  let A : ℝ := max 0 (Real.sqrt gainFactor)
  let aminus1 : ℝ := A - 1
  let aplus1 : ℝ := A + 1
  let omega : ℝ := (2 * Real.pi * max cutOffFrequency 2) / sampleRate
  let coso : ℝ := Real.cos omega
  let beta : ℝ := Real.sin omega * Real.sqrt A / Q
  let aminus1TimesCoso : ℝ := aminus1 * coso
  assign [A * (aplus1 + aminus1TimesCoso + beta),
          A * (-2) * (aminus1 + aplus1 * coso),
          A * (aplus1 + aminus1TimesCoso - beta),
          aplus1 - aminus1TimesCoso + beta,
          2 * (aminus1 - aplus1 * coso),
          aplus1 - aminus1TimesCoso - beta]

end Coefficients

/-- State of a `juce::dsp::IIR::Filter<float>`: the coefficients it points to and its
history `state[0 .. order - 1]`; the member `order` is the length of `state`. -/
structure Filter where
  coefficients : Coefficients
  state : List ℝ

namespace Filter

/-- Member `reset ()`: the history takes the order of the current coefficients and is
filled with zeros. -/
def reset (f : Filter) : Filter :=
  { f with state := List.replicate f.coefficients.getFilterOrder 0 }

/-- Member `prepare`. -/
def prepare (f : Filter) : Filter := f.reset

/-- Member `check`, run at the start of `process`: a history of the wrong order is reset. -/
def check (f : Filter) : Filter :=
  if f.state.length ≠ f.coefficients.getFilterOrder then f.reset else f

/-- One pass of the sample loop of `processInternal` (transposed direct form II), written
for a history of any order; the framework unrolls the orders 1, 2 and 3 of the same
recurrence. Returns the output sample and the new history. -/
def processSample (c : List ℝ) (s : List ℝ) (input : ℝ) : ℝ × List ℝ :=
  let order : ℕ := s.length
  let output : ℝ := input * c.getD 0 0 + s.getD 0 0
  (output,
    (List.range order).map (fun j =>
      if j + 1 < order then
        input * c.getD (j + 1) 0 - output * c.getD (order + j + 1) 0 + s.getD (j + 1) 0
      else
        input * c.getD order 0 - output * c.getD (order * 2) 0))

/-- The sample loop of `processInternal` over a block. -/
def processSamples (c : List ℝ) : List ℝ → List ℝ → List ℝ × List ℝ
  | s, [] => ([], s)
  | s, x :: xs =>
    let r := processSample c s x
    let rest := processSamples c r.2 xs
    (r.1 :: rest.1, rest.2)

/-- Member `process` on a single-channel block. -/
def process (f : Filter) (block : List ℝ) : List ℝ × Filter :=
  let f1 : Filter := f.check
  let r := processSamples f1.coefficients.coefficients f1.state block
  (r.1, { f1 with state := r.2 })

end Filter

/-- State of a `juce::dsp::WaveShaper<float>`: the function applied to every sample. -/
structure WaveShaper where
  functionToUse : ℝ → ℝ

namespace WaveShaper

/-- Member `process`: `functionToUse` on every sample of the block. -/
def process (w : WaveShaper) (block : List ℝ) : List ℝ := block.map w.functionToUse

end WaveShaper

/-! ## `ToneStack` (PluginProcessor.h) -/

/-- State of the struct `ToneStack`. -/
structure ToneStack where
  sampleRate : ℝ
  tone : ℝ
  lowShelf : Filter
  highShelf : Filter

namespace ToneStack

/-- Local `bassGainDb` of `updateFilters`: `juce::jmap (tone, 3.5f, -2.5f)`. -/
def bassGainDb (ts : ToneStack) : ℝ := jmap ts.tone 3.5 (-2.5)

/-- Local `trebleGainDb` of `updateFilters`: `juce::jmap (tone, -5.0f, 8.0f)`. -/
def trebleGainDb (ts : ToneStack) : ℝ := jmap ts.tone (-5.0) 8.0

/-- Local `bassGainLinear` of `updateFilters`. -/
def bassGainLinear (ts : ToneStack) : ℝ := decibelsToGain ts.bassGainDb

/-- Local `trebleGainLinear` of `updateFilters`. -/
def trebleGainLinear (ts : ToneStack) : ℝ := decibelsToGain ts.trebleGainDb

/-- Member `updateFilters`: both shelving filters get new coefficients, nothing else changes. -/
def updateFilters (ts : ToneStack) : ToneStack :=
  let lpCutHz : ℝ := 450.0
  let hpCutHz : ℝ := 1500.0
  let q : ℝ := 0.7071
  { ts with
    lowShelf :=
      { ts.lowShelf with
        coefficients := Coefficients.makeLowShelf ts.sampleRate lpCutHz q ts.bassGainLinear }
    highShelf :=
      { ts.highShelf with
        coefficients := Coefficients.makeHighShelf ts.sampleRate hpCutHz q ts.trebleGainLinear } }

/-- Member `prepare`. -/
def prepare (ts : ToneStack) (specSampleRate : ℝ) : ToneStack :=
  updateFilters
    { ts with
      sampleRate := specSampleRate
      lowShelf := ts.lowShelf.reset
      highShelf := ts.highShelf.reset }

/-- Member `reset`. -/
def reset (ts : ToneStack) : ToneStack :=
  { ts with lowShelf := ts.lowShelf.reset, highShelf := ts.highShelf.reset }

/-- Member `setTone`. -/
def setTone (ts : ToneStack) (newTone : ℝ) : ToneStack :=
  updateFilters { ts with tone := jlimit 0.0 1.0 newTone }

/-- Member `process`: the shelves in series, low shelf first. -/
def process (ts : ToneStack) (block : List ℝ) : List ℝ × ToneStack :=
  let lo := ts.lowShelf.process block
  let hi := ts.highShelf.process lo.1
  (hi.1, { ts with lowShelf := lo.2, highShelf := hi.2 })

end ToneStack

/-! ## The processor chain (`ChainPositions`, `chains`) -/

/-- One element of `chains`: the `juce::dsp::ProcessorChain` of seven stages, a field per
position of `ChainPositions`. -/
structure Chain where
  inputGain : Gain
  preHighPass : Filter
  clipper1 : WaveShaper
  clipper2 : WaveShaper
  toneStack : ToneStack
  postLowPass : Filter
  outputGain : Gain

namespace Chain

/-- Member `prepare` of `juce::dsp::ProcessorChain`: `prepare` of every stage; a wave shaper
has nothing to prepare. -/
def prepare (c : Chain) (specSampleRate : ℝ) : Chain :=
  { c with
    inputGain := c.inputGain.prepare specSampleRate
    preHighPass := c.preHighPass.prepare
    toneStack := c.toneStack.prepare specSampleRate
    postLowPass := c.postLowPass.prepare
    outputGain := c.outputGain.prepare specSampleRate }

/-- Member `process` of `juce::dsp::ProcessorChain` with a replacing context: the stages of
index 0 to 6 in turn, each over the whole block left by the one before. -/
def process (c : Chain) (block : List ℝ) : List ℝ × Chain :=
  let r0 := c.inputGain.process block
  let r1 := c.preHighPass.process r0.1
  let b2 := c.clipper1.process r1.1
  let b3 := c.clipper2.process b2
  let r4 := c.toneStack.process b3
  let r5 := c.postLowPass.process r4.1
  let r6 := c.outputGain.process r5.1
  (r6.1,
    { c with
      inputGain := r0.2
      preHighPass := r1.2
      toneStack := r4.2
      postLowPass := r5.2
      outputGain := r6.2 })

end Chain

/-! ## `FuzzColaAudioProcessor` -/

/-- The raw values held by `apvts`, one per parameter ID of `createParameterLayout`; the two
switches are stored as numbers and read with `> 0.5f`. -/
structure Parameters where
  SUSTAIN : ℝ
  TONE : ℝ
  VOLUME : ℝ
  PEDALON : ℝ
  TONEBYPASS : ℝ

/-- A `juce::AudioBuffer<float>`: one list of samples per channel. The framework asserts
that a channel index is below `getNumChannels ()`; here an access outside the buffer reads
no samples and a write outside the buffer changes nothing. -/
structure AudioBuffer where
  channels : List (List ℝ)

namespace AudioBuffer

/-- Member `getNumChannels`. -/
def getNumChannels (b : AudioBuffer) : ℕ := b.channels.length

/-- Samples of one channel (the block `getSingleChannelBlock (channel)` looks at). -/
def getChannel (b : AudioBuffer) (channel : ℕ) : List ℝ := b.channels.getD channel []

/-- Writing a processed block back over one channel. -/
def setChannel (b : AudioBuffer) (channel : ℕ) (samples : List ℝ) : AudioBuffer :=
  { channels := b.channels.set channel samples }

/-- Member `clear (channel, 0, getNumSamples ())`: every sample of that channel becomes zero. -/
def clear (b : AudioBuffer) (channel : ℕ) : AudioBuffer :=
  b.setChannel channel ((b.getChannel channel).map (fun _ => (0 : ℝ)))

end AudioBuffer

/-- The struct `FactoryPreset` (PluginProcessor.h). -/
structure FactoryPreset where
  name : String
  sustain : ℝ
  tone : ℝ
  volumeDb : ℝ
  toneEnabled : Bool
  pedalOn : Bool

/-- Member `buildFactoryPresets`, as a function of the member array `factoryPresets`:
`clear ()`, then four times `add`, which appends. -/
def buildFactoryPresets (factoryPresets : List FactoryPreset) : List FactoryPreset :=
  let cleared : List FactoryPreset := factoryPresets.take 0
  let added1 : List FactoryPreset := cleared ++
    [{ name := "Wall Of Sound", sustain := 0.90, tone := 0.42, volumeDb := 0.0,
       toneEnabled := true, pedalOn := true }]
  let added2 : List FactoryPreset := added1 ++
    [{ name := "Scooped Rhythm", sustain := 0.72, tone := 0.30, volumeDb := -3.0,
       toneEnabled := true, pedalOn := true }]
  let added3 : List FactoryPreset := added2 ++
    [{ name := "Tight Lead", sustain := 0.60, tone := 0.65, volumeDb := 2.0,
       toneEnabled := true, pedalOn := true }]
  added3 ++
    [{ name := "Tone Bypass Hit", sustain := 0.85, tone := 0.50, volumeDb := 0.0,
       toneEnabled := false, pedalOn := true }]

/-- The members of `FuzzColaAudioProcessor` the signal path reads or writes; the channel
counts are those reported by `getTotalNumInputChannels` and `getTotalNumOutputChannels`. -/
structure Processor where
  chains : Chain × Chain
  currentSampleRate : ℝ
  apvts : Parameters
  totalNumInputChannels : ℕ
  totalNumOutputChannels : ℕ
  factoryPresets : List FactoryPreset

namespace Processor

/-- Body of the loop of `updateDSPFromParameters` for one chain. -/
def updateChain (sustainDb volumeDb tone : ℝ) (toneBypass : Bool) (chain : Chain) : Chain :=
  let effectiveTone : ℝ := if toneBypass then tone else 0.5
  { chain with
    inputGain := chain.inputGain.setGainDecibels sustainDb
    outputGain := chain.outputGain.setGainDecibels volumeDb
    toneStack := chain.toneStack.setTone effectiveTone }

/-- Member `updateDSPFromParameters`. -/
def updateDSPFromParameters (p : Processor) : Processor :=
  let sustain : ℝ := p.apvts.SUSTAIN
  let tone : ℝ := p.apvts.TONE
  let volumeDb : ℝ := p.apvts.VOLUME
  let toneBypass : Bool := decide (p.apvts.TONEBYPASS > 0.5)
  let sustainDb : ℝ := jmapRange sustain 0.0 1.0 15.0 45.0
  { p with
    chains :=
      (updateChain sustainDb volumeDb tone toneBypass p.chains.1,
       updateChain sustainDb volumeDb tone toneBypass p.chains.2) }

/-- Body of the loop of `prepareToPlay` for one chain. -/
def prepareChain (sampleRate : ℝ) (chain : Chain) : Chain :=
  let c0 : Chain := chain.prepare sampleRate
  { c0 with
    inputGain := c0.inputGain.setRampDurationSeconds 0.001
    preHighPass :=
      { c0.preHighPass.reset with coefficients := Coefficients.makeHighPass sampleRate 30.0 }
    clipper1 := { functionToUse := shape1 }
    clipper2 := { functionToUse := shape2 }
    postLowPass :=
      { c0.postLowPass.reset with
        coefficients := Coefficients.makeFirstOrderLowPass sampleRate 5500.0 }
    outputGain := c0.outputGain.setRampDurationSeconds 0.001 }

/-- Member `prepareToPlay`; `samplesPerBlock` only enters the `ProcessSpec`, which no stage of
this chain reads beyond its sample rate. -/
def prepareToPlay (p : Processor) (sampleRate : ℝ) (samplesPerBlock : ℤ) : Processor :=
  let _maximumBlockSize : ℤ := samplesPerBlock
  updateDSPFromParameters
    { p with
      currentSampleRate := sampleRate
      chains := (prepareChain sampleRate p.chains.1, prepareChain sampleRate p.chains.2) }

/-- The loop at the head of `processBlock`: `buffer.clear (channel, 0, n)` for every
`channel` from `totalNumInputChannels` up to, not including, `totalNumOutputChannels`. -/
def clearExtraChannels (p : Processor) (buffer : AudioBuffer) : AudioBuffer :=
  (List.range' p.totalNumInputChannels
      (p.totalNumOutputChannels - p.totalNumInputChannels)).foldl
    (fun b channel => b.clear channel) buffer

/-- Member `processBlock`: the processor and the buffer it leaves behind. -/
def processBlock (p : Processor) (buffer : AudioBuffer) : Processor × AudioBuffer :=
  let buffer1 : AudioBuffer := clearExtraChannels p buffer
  let pedalOn : Bool := decide (p.apvts.PEDALON > 0.5)
  if ¬ pedalOn then (p, buffer1)
  else
    let p1 : Processor := updateDSPFromParameters p
    if buffer1.getNumChannels = 1 then
      let r := p1.chains.1.process (buffer1.getChannel 0)
      ({ p1 with chains := (r.2, p1.chains.2) }, buffer1.setChannel 0 r.1)
    else
      let left := p1.chains.1.process (buffer1.getChannel 0)
      let right := p1.chains.2.process (buffer1.getChannel 1)
      ({ p1 with chains := (left.2, right.2) },
        (buffer1.setChannel 0 left.1).setChannel 1 right.1)

end Processor

/-! ## The stage order in the words of the specification -/

/-- Following the specification (section 4.4): the block passed through input gain,
pre high-pass, clipper 1 (`shape1` on every sample), clipper 2 (`shape2` on every sample),
tone stack (low shelf, then high shelf), post low-pass and output gain, every stage over
the whole block handed on by the stage before it. -/
def specSevenStages (c : Chain) (block : List ℝ) : List ℝ :=
  let afterInputGain : List ℝ := (c.inputGain.process block).1
  let afterPreHighPass : List ℝ := (c.preHighPass.process afterInputGain).1
  let afterClipper1 : List ℝ := afterPreHighPass.map shape1
  let afterClipper2 : List ℝ := afterClipper1.map shape2
  let afterLowShelf : List ℝ := (c.toneStack.lowShelf.process afterClipper2).1
  let afterHighShelf : List ℝ := (c.toneStack.highShelf.process afterLowShelf).1
  let afterPostLowPass : List ℝ := (c.postLowPass.process afterHighShelf).1
  (c.outputGain.process afterPostLowPass).1

/-- Both wave shapers of both chains hold the lambdas `prepareToPlay` assigns. -/
def ShapersInstalled (p : Processor) : Prop :=
  p.chains.1.clipper1.functionToUse = shape1 ∧ p.chains.1.clipper2.functionToUse = shape2 ∧
  p.chains.2.clipper1.functionToUse = shape1 ∧ p.chains.2.clipper2.functionToUse = shape2

/-- Every entry of a block, or of a filter history, is zero. -/
def AllZero (samples : List ℝ) : Prop := ∀ x ∈ samples, x = 0

/-- The histories of the four filters of a chain hold zeros only. -/
def HistoriesZero (c : Chain) : Prop :=
  AllZero c.preHighPass.state ∧ AllZero c.toneStack.lowShelf.state ∧
  AllZero c.toneStack.highShelf.state ∧ AllZero c.postLowPass.state

/-- Gain at frequency zero of a second-order section with the raw coefficients
`b0, b1, b2, a1, a2`: the transfer function at `z = 1`. -/
def dcGain (c : Coefficients) : ℝ :=
  (c.coefficients.getD 0 0 + c.coefficients.getD 1 0 + c.coefficients.getD 2 0)
    / (1 + c.coefficients.getD 3 0 + c.coefficients.getD 4 0)

/-! ## Concrete states for the examples -/

/-- A first-order filter that passes its input through, with a zero history. -/
def sampleFilter : Filter := { coefficients := { coefficients := [1, 0, 0] }, state := [0] }

/-- A gain stage at rest: no ramp, target zero. -/
def sampleGain : Gain :=
  { gain := { currentValue := 0, target := 0, countdown := 0, step := 0, stepsToTarget := 0 }
    sampleRate := 0
    rampDurationSeconds := 0 }

/-- A tone stack with the defaults of the struct (`sampleRate = 44100`, `tone = 0.5`). -/
def sampleToneStack : ToneStack :=
  { sampleRate := 44100, tone := 0.5, lowShelf := sampleFilter, highShelf := sampleFilter }

/-- A chain whose wave shapers have not been given their lambdas yet. -/
def sampleChain : Chain :=
  { inputGain := sampleGain
    preHighPass := sampleFilter
    clipper1 := { functionToUse := fun x => x }
    clipper2 := { functionToUse := fun x => x }
    toneStack := sampleToneStack
    postLowPass := sampleFilter
    outputGain := sampleGain }

/-- A processor with the given parameter values and channel counts. -/
def sampleProcessor (a : Parameters) (numIn numOut : ℕ) : Processor :=
  { chains := (sampleChain, sampleChain)
    currentSampleRate := 44100
    apvts := a
    totalNumInputChannels := numIn
    totalNumOutputChannels := numOut
    factoryPresets := buildFactoryPresets [] }

/-- A gain stage with a ramp of 44 steps, as one millisecond at 44.1 kHz gives, at rest. -/
def sampleRampGain : Gain :=
  { gain := { currentValue := 0, target := 0, countdown := 0, step := 0, stepsToTarget := 44 }
    sampleRate := 44100
    rampDurationSeconds := 0.001 }

/-- A stereo processor whose second chain has ramping gain stages. -/
def sampleRampProcessor (a : Parameters) : Processor :=
  { sampleProcessor a 2 2 with
    chains :=
      (sampleChain,
       { sampleChain with inputGain := sampleRampGain, outputGain := sampleRampGain }) }

/-! ## Parameter ranges, `setParamValue` and `applyFactoryPreset` -/

namespace NormalisableRange

end NormalisableRange

namespace Processor

end Processor

/-! ## Facts about the hyperbolic tangent used by the shaping functions -/

/-- The hyperbolic tangent stays below one. -/
theorem tanh_lt_one (y : ℝ) : Real.tanh y < 1 := by
  rw [Real.tanh_eq_sinh_div_cosh, div_lt_one (Real.cosh_pos y)]
  exact Real.sinh_lt_cosh y

/-- The hyperbolic tangent stays above minus one. -/
theorem neg_one_lt_tanh (y : ℝ) : -1 < Real.tanh y := by
  have h := tanh_lt_one (-y)
  rw [Real.tanh_neg] at h
  linarith

/-- From `5 / 4` on the hyperbolic tangent exceeds one half. -/
theorem half_lt_tanh {y : ℝ} (hy : 5 / 4 ≤ y) : 1 / 2 < Real.tanh y := by
  have he : 9 / 4 ≤ Real.exp y := by
    have := Real.add_one_le_exp y
    linarith
  have hf : 0 < Real.exp (-y) := Real.exp_pos _
  have hef : Real.exp y * Real.exp (-y) = 1 := by
    rw [← Real.exp_add]
    simp
  rw [Real.tanh_eq_sinh_div_cosh, lt_div_iff₀ (Real.cosh_pos y), Real.sinh_eq, Real.cosh_eq]
  nlinarith [mul_nonneg (sub_nonneg.mpr he) hf.le]

/-! ## The shaping functions -/

/-- C5: the stage 1 shaping function is odd, `shape1 (-x) = -shape1 x`. -/
theorem shape1_odd (x : ℝ) : shape1 (-x) = -shape1 x := by
  simp only [shape1]
  rw [mul_neg, neg_div, Real.tanh_neg, mul_neg]

/-- C6: the stage 2 shaping function returns exactly zero at zero, the subtracted centre
being the hyperbolic tangent term of the input zero. -/
theorem shape2_zero :
    shape2 0 = 0 ∧ Real.tanh (5.0 * ((0 : ℝ) + 0.25)) = Real.tanh (5.0 * 0.25) := by
  constructor
  · simp only [shape2, zero_add, sub_self, mul_zero]
  · rw [zero_add]

/-- C3, the claim as stated fails: at the input `-1` the stage 2 shaping function is below
`-0.8`, so its absolute value is not below `0.8`. -/
theorem shape2_abs_not_lt : ¬ (|shape2 (-1)| < 0.8) := by
  have h1 : 1 / 2 < Real.tanh (15 / 4) := half_lt_tanh (by norm_num)
  have h2 : 1 / 2 < Real.tanh (5 / 4) := half_lt_tanh le_rfl
  have e1 : (5.0 : ℝ) * (-1 + 0.25) = -(15 / 4) := by norm_num
  have e2 : (5.0 : ℝ) * 0.25 = 5 / 4 := by norm_num
  simp only [shape2]
  rw [e1, e2, Real.tanh_neg, abs_lt]
  intro h
  linarith [h.1]

/-- C3 as amended: for every real input the stage 2 shaping function is below `0.8` and
its absolute value is below `1.6`; from the input `-0.25` upwards its absolute value is
below `0.8`. -/
theorem shape2_bounds (x : ℝ) :
    shape2 x < 0.8 ∧ |shape2 x| < 1.6 ∧ (-0.25 ≤ x → |shape2 x| < 0.8) := by
  have h1 := tanh_lt_one (5.0 * (x + 0.25))
  have h2 := neg_one_lt_tanh (5.0 * (x + 0.25))
  have h3 := tanh_lt_one (5.0 * 0.25)
  have h4 : 1 / 2 < Real.tanh (5.0 * 0.25) := half_lt_tanh (by norm_num)
  simp only [shape2]
  refine ⟨by linarith, ?_, ?_⟩
  · rw [abs_lt]
    constructor <;> linarith
  · intro hx
    have h5 : 0 ≤ Real.tanh (5.0 * (x + 0.25)) := by
      rw [Real.tanh_eq_sinh_div_cosh]
      apply div_nonneg _ (Real.cosh_pos _).le
      rw [Real.sinh_nonneg_iff]
      linarith
    rw [abs_lt]
    constructor <;> linarith

/-- C3 as amended, at the input zero, which lies above `-0.25`. -/
theorem shape2_bounds_witness : (-0.25 : ℝ) ≤ 0 ∧ |shape2 0| < 0.8 :=
  ⟨by norm_num, (shape2_bounds 0).2.2 (by norm_num)⟩

/-! ## The head of `processBlock`: clearing and the hard bypass -/

/-- Clearing one channel leaves every other channel as it was. -/
theorem clear_channels_ne (b : AudioBuffer) {k c : ℕ} (h : k ≠ c) :
    (b.clear k).channels[c]? = b.channels[c]? := by
  simp [AudioBuffer.clear, AudioBuffer.setChannel, List.getElem?_set_ne h]

/-- Clearing a channel keeps the number of channels. -/
theorem clear_getNumChannels (b : AudioBuffer) (k : ℕ) :
    (b.clear k).getNumChannels = b.getNumChannels := by
  simp [AudioBuffer.clear, AudioBuffer.setChannel, AudioBuffer.getNumChannels]

/-- Clearing a list of channels leaves the channels outside the list as they were. -/
theorem foldl_clear_channels (ks : List ℕ) (c : ℕ) (h : ∀ k ∈ ks, k ≠ c) (b : AudioBuffer) :
    (ks.foldl (fun b channel => b.clear channel) b).channels[c]? = b.channels[c]? := by
  induction ks generalizing b with
  | nil => rfl
  | cons k ks ih =>
    simp only [List.foldl_cons]
    rw [ih (fun j hj => h j (List.mem_cons_of_mem _ hj)),
      clear_channels_ne b (h k (List.mem_cons_self _ _))]

/-- Clearing a list of channels keeps the number of channels. -/
theorem foldl_clear_getNumChannels (ks : List ℕ) (b : AudioBuffer) :
    (ks.foldl (fun b channel => b.clear channel) b).getNumChannels = b.getNumChannels := by
  induction ks generalizing b with
  | nil => rfl
  | cons k ks ih =>
    simp only [List.foldl_cons]
    rw [ih, clear_getNumChannels]

/-- The clearing loop keeps the number of channels. -/
theorem clearExtraChannels_getNumChannels (p : Processor) (b : AudioBuffer) :
    (p.clearExtraChannels b).getNumChannels = b.getNumChannels :=
  foldl_clear_getNumChannels _ b

/-- The clearing loop leaves the channels below the input count, and those from the output
count on, as they were. -/
theorem clearExtraChannels_channels (p : Processor) (b : AudioBuffer) (c : ℕ)
    (hc : c < p.totalNumInputChannels ∨ p.totalNumOutputChannels ≤ c) :
    (p.clearExtraChannels b).channels[c]? = b.channels[c]? := by
  apply foldl_clear_channels
  intro k hk
  rw [List.mem_range'_1] at hk
  omega

/-- With the pedal off `processBlock` returns right after the clearing loop. -/
theorem processBlock_pedal_off (p : Processor) (b : AudioBuffer)
    (hoff : ¬ (p.apvts.PEDALON > 0.5)) :
    p.processBlock b = (p, p.clearExtraChannels b) := by
  simp [Processor.processBlock, hoff]

/-- The mapper leaves the wave shapers alone. -/
theorem updateDSPFromParameters_shapersInstalled (p : Processor) (h : ShapersInstalled p) :
    ShapersInstalled p.updateDSPFromParameters := h

/-- After `prepareToPlay` both chains hold the two lambdas. -/
theorem prepareToPlay_shapersInstalled (p : Processor) (sampleRate : ℝ) (samplesPerBlock : ℤ) :
    ShapersInstalled (p.prepareToPlay sampleRate samplesPerBlock) :=
  ⟨rfl, rfl, rfl, rfl⟩

/-- A chain holding the two lambdas produces the block of the seven stages in order. -/
theorem chain_process_eq_spec (c : Chain) (block : List ℝ)
    (h1 : c.clipper1.functionToUse = shape1) (h2 : c.clipper2.functionToUse = shape2) :
    (c.process block).1 = specSevenStages c block := by
  simp only [Chain.process, specSevenStages, WaveShaper.process, ToneStack.process, h1, h2]

/-- Reading back a channel that was just written. -/
theorem getChannel_setChannel (b : AudioBuffer) (k : ℕ) (samples : List ℝ)
    (hk : k < b.getNumChannels) : (b.setChannel k samples).getChannel k = samples := by
  simp only [AudioBuffer.getNumChannels] at hk
  simp [AudioBuffer.getChannel, AudioBuffer.setChannel, List.getD_eq_getElem?_getD, hk]

/-- Writing one channel does not show in another. -/
theorem getChannel_setChannel_ne (b : AudioBuffer) {k c : ℕ} (samples : List ℝ) (h : k ≠ c) :
    (b.setChannel k samples).getChannel c = b.getChannel c := by
  simp [AudioBuffer.getChannel, AudioBuffer.setChannel, List.getD_eq_getElem?_getD,
    List.getElem?_set_ne h]

/-- Writing a channel keeps the number of channels. -/
theorem setChannel_getNumChannels (b : AudioBuffer) (k : ℕ) (samples : List ℝ) :
    (b.setChannel k samples).getNumChannels = b.getNumChannels := by
  simp [AudioBuffer.setChannel, AudioBuffer.getNumChannels]

/-- C2: once `prepareToPlay` has installed the two lambdas and with the pedal on, the block
`processBlock` leaves in each processed channel is the block that channel held on entry to
the chain, passed through input gain, pre high-pass, clipper 1, clipper 2, tone stack (low
shelf then high shelf), post low-pass and output gain in this order, each stage over the
whole block, with the settings the mapper has just pushed: channel 0 through chain 0 for a
one-channel buffer, channels 0 and 1 through chains 0 and 1 otherwise. -/
theorem processBlock_stage_order (p : Processor) (b : AudioBuffer)
    (hprep : ShapersInstalled p) (hon : p.apvts.PEDALON > 0.5) :
    (b.getNumChannels = 1 →
      (p.processBlock b).2.getChannel 0
        = specSevenStages p.updateDSPFromParameters.chains.1
            ((p.clearExtraChannels b).getChannel 0)) ∧
    (2 ≤ b.getNumChannels →
      (p.processBlock b).2.getChannel 0
        = specSevenStages p.updateDSPFromParameters.chains.1
            ((p.clearExtraChannels b).getChannel 0) ∧
      (p.processBlock b).2.getChannel 1
        = specSevenStages p.updateDSPFromParameters.chains.2
            ((p.clearExtraChannels b).getChannel 1)) := by
  have hq := updateDSPFromParameters_shapersInstalled p hprep
  have hlen := clearExtraChannels_getNumChannels p b
  constructor
  · intro h1
    have h1c : (p.clearExtraChannels b).getNumChannels = 1 := by rw [hlen, h1]
    simp only [Processor.processBlock, hon, decide_True, not_true_eq_false, if_false, h1c,
      if_true]
    rw [getChannel_setChannel _ _ _ (by rw [h1c]; exact Nat.one_pos)]
    exact chain_process_eq_spec _ _ hq.1 hq.2.1
  · intro h2
    have h2c : (p.clearExtraChannels b).getNumChannels ≠ 1 := by rw [hlen]; omega
    simp only [Processor.processBlock, hon, decide_True, not_true_eq_false, if_false, h2c]
    constructor
    · rw [getChannel_setChannel_ne _ _ (by decide),
        getChannel_setChannel _ _ _ (by rw [hlen]; omega)]
      exact chain_process_eq_spec _ _ hq.1 hq.2.1
    · rw [getChannel_setChannel _ _ _ (by rw [setChannel_getNumChannels, hlen]; omega)]
      exact chain_process_eq_spec _ _ hq.2.2.1 hq.2.2.2

/-- C2 on a prepared stereo processor with the pedal on and a two-channel buffer. -/
theorem processBlock_stage_order_witness :
    ShapersInstalled ((sampleProcessor ⟨0.5, 0.5, 0, 1, 1⟩ 2 2).prepareToPlay 44100 512) ∧
    ((sampleProcessor ⟨0.5, 0.5, 0, 1, 1⟩ 2 2).prepareToPlay 44100 512).apvts.PEDALON > 0.5 ∧
    ((((sampleProcessor ⟨0.5, 0.5, 0, 1, 1⟩ 2 2).prepareToPlay 44100 512).processBlock
        ⟨[[1, 2], [3, 4]]⟩).2.getChannel 0
      = specSevenStages
          ((sampleProcessor ⟨0.5, 0.5, 0, 1, 1⟩ 2 2).prepareToPlay 44100
            512).updateDSPFromParameters.chains.1
          ((((sampleProcessor ⟨0.5, 0.5, 0, 1, 1⟩ 2 2).prepareToPlay 44100
            512).clearExtraChannels ⟨[[1, 2], [3, 4]]⟩).getChannel 0)) :=
  ⟨prepareToPlay_shapersInstalled _ _ _,
   by norm_num [sampleProcessor, Processor.prepareToPlay, Processor.updateDSPFromParameters],
   ((processBlock_stage_order
      ((sampleProcessor ⟨0.5, 0.5, 0, 1, 1⟩ 2 2).prepareToPlay 44100 512) ⟨[[1, 2], [3, 4]]⟩
      (prepareToPlay_shapersInstalled _ _ _)
      (by norm_num [sampleProcessor, Processor.prepareToPlay,
        Processor.updateDSPFromParameters])).2
      (by simp [AudioBuffer.getNumChannels])).1⟩

/-! ## Decibels and the gain stages -/

/-- Above minus infinity `decibelsToGain` is the power `10 ^ (dB / 20)`. -/
theorem decibelsToGain_of_gt {d : ℝ} (h : -100 < d) : decibelsToGain d = (10 : ℝ) ^ (d / 20) := by
  have e : d * 0.05 = d / 20 := by ring
  simp [decibelsToGain, defaultMinusInfinitydB, h, e]

/-- Above minus infinity `gainToDecibels` undoes `decibelsToGain`. -/
theorem gainToDecibels_decibelsToGain {d : ℝ} (h : -100 < d) :
    gainToDecibels (decibelsToGain d) = d := by
  rw [decibelsToGain_of_gt h]
  have hpos : (0 : ℝ) < (10 : ℝ) ^ (d / 20) := Real.rpow_pos_of_pos (by norm_num) _
  have hlog : Real.logb 10 ((10 : ℝ) ^ (d / 20)) = d / 20 :=
    Real.logb_rpow (by norm_num) (by norm_num)
  have e : d / 20 * 20 = d := by ring
  simp only [gainToDecibels, defaultMinusInfinitydB, gt_iff_lt, hpos, if_true, hlog, e]
  exact max_eq_right h.le

/-- After `setTargetValue` the target is the new value, on each of its three paths. -/
theorem setTargetValue_target (s : SmoothedValue) (v : ℝ) : (s.setTargetValue v).target = v := by
  unfold SmoothedValue.setTargetValue
  split_ifs with h1 h2
  · exact h1.symm
  · rfl
  · rfl

/-- After `setGainDecibels` the linear gain aimed at is `decibelsToGain` of the argument. -/
theorem setGainDecibels_getGainLinear (g : Gain) (d : ℝ) :
    (g.setGainDecibels d).getGainLinear = decibelsToGain d := by
  simp [Gain.setGainDecibels, Gain.setGainLinear, Gain.getGainLinear, setTargetValue_target]

/-- After `setGainDecibels` above minus infinity, `getGainDecibels` reads the argument back. -/
theorem setGainDecibels_getGainDecibels (g : Gain) {d : ℝ} (h : -100 < d) :
    (g.setGainDecibels d).getGainDecibels = d := by
  rw [Gain.getGainDecibels, setGainDecibels_getGainLinear, gainToDecibels_decibelsToGain h]

/-- The sustain mapping `jmap (sustain, 0, 1, 15, 45)` is `15 + 30 * sustain`. -/
theorem jmapRange_sustain (sustain : ℝ) :
    jmapRange sustain 0.0 1.0 15.0 45.0 = 15 + 30 * sustain := by
  simp only [jmapRange]
  ring

/-! ## The parameter mapper -/

/-- C7: for every sustain in `[0, 1]` the mapper leaves the input gain of both chains at
`15 + 30 * sustain` dB, that is at the linear gain `10 ^ ((15 + 30 * sustain) / 20)`, and for
every volume in `[-60, 12]` it leaves the output gain of both chains at exactly that many dB. -/
theorem updateDSPFromParameters_gains (p : Processor) :
    (0 ≤ p.apvts.SUSTAIN ∧ p.apvts.SUSTAIN ≤ 1 →
      p.updateDSPFromParameters.chains.1.inputGain.getGainDecibels = 15 + 30 * p.apvts.SUSTAIN ∧
      p.updateDSPFromParameters.chains.2.inputGain.getGainDecibels = 15 + 30 * p.apvts.SUSTAIN ∧
      p.updateDSPFromParameters.chains.1.inputGain.getGainLinear
        = (10 : ℝ) ^ ((15 + 30 * p.apvts.SUSTAIN) / 20) ∧
      p.updateDSPFromParameters.chains.2.inputGain.getGainLinear
        = (10 : ℝ) ^ ((15 + 30 * p.apvts.SUSTAIN) / 20)) ∧
    (-60 ≤ p.apvts.VOLUME ∧ p.apvts.VOLUME ≤ 12 →
      p.updateDSPFromParameters.chains.1.outputGain.getGainDecibels = p.apvts.VOLUME ∧
      p.updateDSPFromParameters.chains.2.outputGain.getGainDecibels = p.apvts.VOLUME ∧
      p.updateDSPFromParameters.chains.1.outputGain.getGainLinear
        = (10 : ℝ) ^ (p.apvts.VOLUME / 20) ∧
      p.updateDSPFromParameters.chains.2.outputGain.getGainLinear
        = (10 : ℝ) ^ (p.apvts.VOLUME / 20)) := by
  constructor
  · rintro ⟨h0, h1⟩
    have hd : (-100 : ℝ) < 15 + 30 * p.apvts.SUSTAIN := by linarith
    simp only [Processor.updateDSPFromParameters, Processor.updateChain, jmapRange_sustain]
    exact ⟨setGainDecibels_getGainDecibels _ hd, setGainDecibels_getGainDecibels _ hd,
      by rw [setGainDecibels_getGainLinear, decibelsToGain_of_gt hd],
      by rw [setGainDecibels_getGainLinear, decibelsToGain_of_gt hd]⟩
  · rintro ⟨h0, h1⟩
    have hd : (-100 : ℝ) < p.apvts.VOLUME := by linarith
    simp only [Processor.updateDSPFromParameters, Processor.updateChain]
    exact ⟨setGainDecibels_getGainDecibels _ hd, setGainDecibels_getGainDecibels _ hd,
      by rw [setGainDecibels_getGainLinear, decibelsToGain_of_gt hd],
      by rw [setGainDecibels_getGainLinear, decibelsToGain_of_gt hd]⟩

/-- C7 at the three sustain values of the specification and at the volume `-3` dB: sustain
`0` gives `15` dB, `0.5` gives `30` dB and `1` gives `45` dB of input gain. -/
theorem updateDSPFromParameters_gains_witness :
    (sampleProcessor ⟨0, 0.5, -3, 1, 1⟩ 2 2).updateDSPFromParameters.chains.1.inputGain.getGainDecibels
      = 15 ∧
    (sampleProcessor ⟨0.5, 0.5, -3, 1, 1⟩ 2 2).updateDSPFromParameters.chains.1.inputGain.getGainDecibels
      = 30 ∧
    (sampleProcessor ⟨1, 0.5, -3, 1, 1⟩ 2 2).updateDSPFromParameters.chains.1.inputGain.getGainDecibels
      = 45 ∧
    (sampleProcessor ⟨1, 0.5, -3, 1, 1⟩ 2 2).updateDSPFromParameters.chains.2.outputGain.getGainDecibels
      = -3 := by
  have a := ((updateDSPFromParameters_gains (sampleProcessor ⟨0, 0.5, -3, 1, 1⟩ 2 2)).1
    (by norm_num [sampleProcessor])).1
  have b := ((updateDSPFromParameters_gains (sampleProcessor ⟨0.5, 0.5, -3, 1, 1⟩ 2 2)).1
    (by norm_num [sampleProcessor])).1
  have c := ((updateDSPFromParameters_gains (sampleProcessor ⟨1, 0.5, -3, 1, 1⟩ 2 2)).1
    (by norm_num [sampleProcessor])).1
  have d := ((updateDSPFromParameters_gains (sampleProcessor ⟨1, 0.5, -3, 1, 1⟩ 2 2)).2
    (by norm_num [sampleProcessor])).2.1
  refine ⟨?_, ?_, ?_, ?_⟩
  · rw [a]; norm_num [sampleProcessor]
  · rw [b]; norm_num [sampleProcessor]
  · rw [c]; norm_num [sampleProcessor]
  · rw [d]; rfl

/-! ## Clamping -/

/-- The call `jlimit (0, 1, t)` is the clamp of `t` to `[0, 1]`. -/
theorem jlimit_zero_one (t : ℝ) : jlimit 0.0 1.0 t = max 0 (min t 1) := by
  have e0 : (0.0 : ℝ) = 0 := by norm_num
  have e1 : (1.0 : ℝ) = 1 := by norm_num
  rw [e0, e1]
  unfold jlimit
  split_ifs with h1 h2
  · rw [max_eq_left]
    exact le_trans (min_le_left _ _) (by linarith)
  · have h3 : (1 : ℝ) < t := by linarith
    rw [min_eq_right h3.le, max_eq_right (by norm_num)]
  · have h3 : (0 : ℝ) ≤ t := by linarith
    have h4 : t ≤ 1 := by linarith
    rw [min_eq_left h4, max_eq_right h3]

/-- The clamp to `[0, 1]` lies in `[0, 1]`. -/
theorem clamp_mem (t : ℝ) : 0 ≤ max 0 (min t 1) ∧ max 0 (min t 1) ≤ 1 :=
  ⟨le_max_left _ _, max_le (by norm_num) (min_le_right _ _)⟩

/-- A value of `[0, 1]` is its own clamp. -/
theorem clamp_of_mem {t : ℝ} (h0 : 0 ≤ t) (h1 : t ≤ 1) : max 0 (min t 1) = t := by
  rw [min_eq_left h1, max_eq_right h0]

/-- The tone stored by `setTone` is the clamp of the argument. -/
theorem setTone_tone (ts : ToneStack) (t : ℝ) : (ts.setTone t).tone = max 0 (min t 1) := by
  simp only [ToneStack.setTone, ToneStack.updateFilters, jlimit_zero_one]

/-- The bass gain in dB is `3.5 - 6 * tone`. -/
theorem bassGainDb_eq (ts : ToneStack) : ts.bassGainDb = 3.5 - 6 * ts.tone := by
  simp only [ToneStack.bassGainDb, jmap]
  ring

/-- The treble gain in dB is `-5 + 13 * tone`. -/
theorem trebleGainDb_eq (ts : ToneStack) : ts.trebleGainDb = -5 + 13 * ts.tone := by
  simp only [ToneStack.trebleGainDb, jmap]
  ring

/-- The call `updateFilters` keeps the tone, hence both gains. -/
theorem updateFilters_tone (ts : ToneStack) : ts.updateFilters.tone = ts.tone := rfl

/-- With a tone of at most one the linear bass gain is `10 ^ (bassGainDb / 20)`. -/
theorem bassGainLinear_eq (ts : ToneStack) (h1 : ts.tone ≤ 1) :
    ts.bassGainLinear = (10 : ℝ) ^ ((3.5 - 6 * ts.tone) / 20) := by
  rw [ToneStack.bassGainLinear, bassGainDb_eq, decibelsToGain_of_gt (by linarith)]

/-- With a tone of at least zero the linear treble gain is `10 ^ (trebleGainDb / 20)`. -/
theorem trebleGainLinear_eq (ts : ToneStack) (h0 : 0 ≤ ts.tone) :
    ts.trebleGainLinear = (10 : ℝ) ^ ((-5 + 13 * ts.tone) / 20) := by
  rw [ToneStack.trebleGainLinear, trebleGainDb_eq, decibelsToGain_of_gt (by linarith)]

/-- C9: for every `t`, `setTone t` stores the clamp `c` of `t` to `[0, 1]`, works with the
bass gain `3.5 - 6 * c` dB and the treble gain `-5 + 13 * c` dB, and leaves the low shelf with
the coefficients for 450 Hz, the high shelf with those for 1500 Hz, both with `Q = 0.7071` and
the linear gain `10 ^ (dB / 20)`; sample rate and filter histories stay as they were. At
`t = 0` the gains are `3.5` and `-5` dB, at `t = 0.5` they are `0.5` and `1.5` dB, and at
`t = 1` they are `-2.5` and `8` dB. -/
theorem setTone_spec (ts : ToneStack) (t : ℝ) :
    (ts.setTone t).tone = max 0 (min t 1) ∧
    (ts.setTone t).bassGainDb = 3.5 - 6 * max 0 (min t 1) ∧
    (ts.setTone t).trebleGainDb = -5 + 13 * max 0 (min t 1) ∧
    (ts.setTone t).lowShelf.coefficients
      = Coefficients.makeLowShelf ts.sampleRate 450 0.7071
          ((10 : ℝ) ^ ((3.5 - 6 * max 0 (min t 1)) / 20)) ∧
    (ts.setTone t).highShelf.coefficients
      = Coefficients.makeHighShelf ts.sampleRate 1500 0.7071
          ((10 : ℝ) ^ ((-5 + 13 * max 0 (min t 1)) / 20)) ∧
    ((ts.setTone t).sampleRate = ts.sampleRate ∧
      (ts.setTone t).lowShelf.state = ts.lowShelf.state ∧
      (ts.setTone t).highShelf.state = ts.highShelf.state) ∧
    ((ts.setTone 0).bassGainDb = 3.5 ∧ (ts.setTone 0).trebleGainDb = -5) ∧
    ((ts.setTone 0.5).bassGainDb = 0.5 ∧ (ts.setTone 0.5).trebleGainDb = 1.5) ∧
    ((ts.setTone 1).bassGainDb = -2.5 ∧ (ts.setTone 1).trebleGainDb = 8) := by
  have hc := clamp_mem t
  have hlin : ∀ u : ToneStack, u.tone = max 0 (min t 1) →
      u.bassGainLinear = (10 : ℝ) ^ ((3.5 - 6 * max 0 (min t 1)) / 20) ∧
      u.trebleGainLinear = (10 : ℝ) ^ ((-5 + 13 * max 0 (min t 1)) / 20) := by
    intro u hu
    have h0 : 0 ≤ u.tone := hu ▸ hc.1
    have h1 : u.tone ≤ 1 := hu ▸ hc.2
    rw [bassGainLinear_eq u h1, trebleGainLinear_eq u h0, hu]
    exact ⟨rfl, rfl⟩
  have hu := hlin { ts with tone := jlimit 0.0 1.0 t } (jlimit_zero_one t)
  have e450 : (450.0 : ℝ) = 450 := by norm_num
  have e1500 : (1500.0 : ℝ) = 1500 := by norm_num
  have v0 : max (0 : ℝ) (min 0 1) = 0 := by norm_num
  have v5 : max (0 : ℝ) (min 0.5 1) = 0.5 := by norm_num
  have v1 : max (0 : ℝ) (min 1 1) = 1 := by norm_num
  refine ⟨setTone_tone ts t, ?_, ?_, ?_, ?_, ⟨rfl, rfl, rfl⟩, ⟨?_, ?_⟩, ⟨?_, ?_⟩, ⟨?_, ?_⟩⟩
  · rw [bassGainDb_eq, setTone_tone]
  · rw [trebleGainDb_eq, setTone_tone]
  · simp only [ToneStack.setTone, ToneStack.updateFilters, hu.1, e450]
  · simp only [ToneStack.setTone, ToneStack.updateFilters, hu.2, e1500]
  · rw [bassGainDb_eq, setTone_tone, v0]; norm_num
  · rw [trebleGainDb_eq, setTone_tone, v0]; norm_num
  · rw [bassGainDb_eq, setTone_tone, v5]; norm_num
  · rw [trebleGainDb_eq, setTone_tone, v5]; norm_num
  · rw [bassGainDb_eq, setTone_tone, v1]; norm_num
  · rw [trebleGainDb_eq, setTone_tone, v1]; norm_num

/-- C10: for tones `t1 < t2` of `[0, 1]` the bass gain after `setTone t1` is strictly above
the one after `setTone t2`, in dB and as a linear factor, and the treble gain after
`setTone t1` is strictly below the one after `setTone t2`, in dB and as a linear factor. -/
theorem setTone_gains_monotone (a b : ToneStack) (t1 t2 : ℝ)
    (h0 : 0 ≤ t1) (hlt : t1 < t2) (h1 : t2 ≤ 1) :
    (b.setTone t2).bassGainDb < (a.setTone t1).bassGainDb ∧
    (b.setTone t2).bassGainLinear < (a.setTone t1).bassGainLinear ∧
    (a.setTone t1).trebleGainDb < (b.setTone t2).trebleGainDb ∧
    (a.setTone t1).trebleGainLinear < (b.setTone t2).trebleGainLinear := by
  have c1 : max 0 (min t1 1) = t1 := clamp_of_mem h0 (by linarith)
  have c2 : max 0 (min t2 1) = t2 := clamp_of_mem (by linarith) h1
  have ta : (a.setTone t1).tone = t1 := by rw [setTone_tone, c1]
  have tb : (b.setTone t2).tone = t2 := by rw [setTone_tone, c2]
  have ha0 : 0 ≤ (a.setTone t1).tone := by rw [ta]; exact h0
  have ha1 : (a.setTone t1).tone ≤ 1 := by rw [ta]; linarith
  have hb0 : 0 ≤ (b.setTone t2).tone := by rw [tb]; linarith
  have hb1 : (b.setTone t2).tone ≤ 1 := by rw [tb]; exact h1
  have hten : (1 : ℝ) < 10 := by norm_num
  refine ⟨?_, ?_, ?_, ?_⟩
  · rw [bassGainDb_eq, bassGainDb_eq, ta, tb]
    linarith
  · rw [bassGainLinear_eq _ hb1, bassGainLinear_eq _ ha1, ta, tb]
    apply Real.rpow_lt_rpow_of_exponent_lt hten
    linarith
  · rw [trebleGainDb_eq, trebleGainDb_eq, ta, tb]
    linarith
  · rw [trebleGainLinear_eq _ ha0, trebleGainLinear_eq _ hb0, ta, tb]
    apply Real.rpow_lt_rpow_of_exponent_lt hten
    linarith

/-- C10 at the two ends of the tone range: the darkest setting has more bass and less treble
than the brightest. -/
theorem setTone_gains_monotone_witness :
    ((0 : ℝ) ≤ 0 ∧ (0 : ℝ) < 1 ∧ (1 : ℝ) ≤ 1) ∧
    (sampleToneStack.setTone 1).bassGainDb < (sampleToneStack.setTone 0).bassGainDb ∧
    (sampleToneStack.setTone 1).bassGainLinear < (sampleToneStack.setTone 0).bassGainLinear ∧
    (sampleToneStack.setTone 0).trebleGainDb < (sampleToneStack.setTone 1).trebleGainDb ∧
    (sampleToneStack.setTone 0).trebleGainLinear
      < (sampleToneStack.setTone 1).trebleGainLinear :=
  ⟨⟨le_rfl, by norm_num, le_rfl⟩,
   setTone_gains_monotone sampleToneStack sampleToneStack 0 1 le_rfl (by norm_num) le_rfl⟩

/-! ## Tone bypass and idempotence of the mapper -/

/-- C11: with the tone switch off the mapper sets the tone stack of both chains with the
fixed tone `0.5`, so the chains it leaves do not depend on the live tone value; with the
switch on the tone stacks are set with the live tone value. -/
theorem updateDSPFromParameters_tone_bypass (p : Processor) :
    (¬ (p.apvts.TONEBYPASS > 0.5) →
      p.updateDSPFromParameters.chains.1.toneStack = p.chains.1.toneStack.setTone 0.5 ∧
      p.updateDSPFromParameters.chains.2.toneStack = p.chains.2.toneStack.setTone 0.5 ∧
      ∀ t1 t2 : ℝ,
        Processor.chains (Processor.updateDSPFromParameters
            { p with apvts := { p.apvts with TONE := t1 } })
          = Processor.chains (Processor.updateDSPFromParameters
            { p with apvts := { p.apvts with TONE := t2 } })) ∧
    (p.apvts.TONEBYPASS > 0.5 →
      p.updateDSPFromParameters.chains.1.toneStack
        = p.chains.1.toneStack.setTone p.apvts.TONE ∧
      p.updateDSPFromParameters.chains.2.toneStack
        = p.chains.2.toneStack.setTone p.apvts.TONE) := by
  constructor
  · intro hb
    refine ⟨?_, ?_, fun t1 t2 => ?_⟩ <;>
      simp only [Processor.updateDSPFromParameters, Processor.updateChain, hb, decide_False,
        Bool.false_eq_true, if_false]
  · intro hb
    constructor <;>
      simp only [Processor.updateDSPFromParameters, Processor.updateChain, hb, decide_True,
        if_true]

/-- C11 on two snapshots with the tone switch off that differ in the live tone only, and on
a snapshot with the switch on and the tone `0.25`. -/
theorem updateDSPFromParameters_tone_bypass_witness :
    ¬ ((sampleProcessor ⟨0.5, 0.5, 0, 1, 0⟩ 2 2).apvts.TONEBYPASS > 0.5) ∧
    (sampleProcessor ⟨0.5, 0.1, 0, 1, 0⟩ 2 2).updateDSPFromParameters.chains
      = (sampleProcessor ⟨0.5, 0.9, 0, 1, 0⟩ 2 2).updateDSPFromParameters.chains ∧
    (sampleProcessor ⟨0.5, 0.25, 0, 1, 1⟩ 2 2).updateDSPFromParameters.chains.1.toneStack
      = sampleToneStack.setTone 0.25 :=
  ⟨by norm_num [sampleProcessor],
   ((updateDSPFromParameters_tone_bypass (sampleProcessor ⟨0.5, 0.5, 0, 1, 0⟩ 2 2)).1
      (by norm_num [sampleProcessor])).2.2 0.1 0.9,
   ((updateDSPFromParameters_tone_bypass (sampleProcessor ⟨0.5, 0.25, 0, 1, 1⟩ 2 2)).2
      (by norm_num [sampleProcessor])).1⟩

/-- Setting the target it already has leaves a smoothed value as it is. -/
theorem setTargetValue_of_eq (s : SmoothedValue) (v : ℝ) (h : v = s.target) :
    s.setTargetValue v = s := by
  unfold SmoothedValue.setTargetValue
  rw [if_pos h]

/-- A second `setTargetValue` with the same value changes nothing. -/
theorem setTargetValue_idem (s : SmoothedValue) (v : ℝ) :
    (s.setTargetValue v).setTargetValue v = s.setTargetValue v :=
  setTargetValue_of_eq _ v (setTargetValue_target s v).symm

/-- A second `setGainDecibels` with the same value changes nothing. -/
theorem setGainDecibels_idem (g : Gain) (d : ℝ) :
    (g.setGainDecibels d).setGainDecibels d = g.setGainDecibels d := by
  simp only [Gain.setGainDecibels, Gain.setGainLinear, setTargetValue_idem]

/-- A second `setTone` with the same value changes nothing. -/
theorem setTone_idem (ts : ToneStack) (t : ℝ) : (ts.setTone t).setTone t = ts.setTone t := rfl

/-- A second run of the loop body of the mapper with the same values changes nothing. -/
theorem updateChain_idem (sustainDb volumeDb tone : ℝ) (toneBypass : Bool) (c : Chain) :
    Processor.updateChain sustainDb volumeDb tone toneBypass
        (Processor.updateChain sustainDb volumeDb tone toneBypass c)
      = Processor.updateChain sustainDb volumeDb tone toneBypass c := by
  simp only [Processor.updateChain, setGainDecibels_idem, setTone_idem]

/-- C12: running `updateDSPFromParameters` twice in a row leaves the processor, and with
it both chains, in the state one run leaves, so a block processed afterwards, by
`processBlock` or by either chain, comes out the same with the same next state. -/
theorem updateDSPFromParameters_idempotent (p : Processor) :
    p.updateDSPFromParameters.updateDSPFromParameters = p.updateDSPFromParameters ∧
    (∀ b : AudioBuffer,
      p.updateDSPFromParameters.updateDSPFromParameters.processBlock b
        = p.updateDSPFromParameters.processBlock b) ∧
    (∀ block : List ℝ,
      p.updateDSPFromParameters.updateDSPFromParameters.chains.1.process block
        = p.updateDSPFromParameters.chains.1.process block ∧
      p.updateDSPFromParameters.updateDSPFromParameters.chains.2.process block
        = p.updateDSPFromParameters.chains.2.process block) := by
  have h : p.updateDSPFromParameters.updateDSPFromParameters = p.updateDSPFromParameters := by
    simp only [Processor.updateDSPFromParameters, updateChain_idem]
  refine ⟨h, fun b => ?_, fun block => ?_⟩
  · rw [h]
  · rw [h]
    exact ⟨rfl, rfl⟩

/-! ## Silence: zero blocks through stages with zero histories -/

/-- A list of zeros holds zeros only. -/
theorem allZero_replicate (n : ℕ) : AllZero (List.replicate n 0) :=
  fun _ hx => (List.mem_replicate.mp hx).2

/-- A list holding zeros only is the list of that many zeros. -/
theorem eq_replicate_of_allZero {l : List ℝ} (h : AllZero l) :
    l = List.replicate l.length 0 :=
  List.eq_replicate_iff.mpr ⟨rfl, h⟩

/-- Reading a list of zeros, inside or outside its bounds, gives zero. -/
theorem getD_of_allZero {s : List ℝ} (h : AllZero s) (j : ℕ) : s.getD j 0 = 0 := by
  rw [List.getD_eq_getElem?_getD]
  cases hj : s[j]? with
  | none => rfl
  | some x => exact h x (List.getElem?_mem hj)

/-- A zero sample into a filter with a zero history: zero comes out, the history stays zero. -/
theorem processSample_zero (c s : List ℝ) (h : AllZero s) :
    (Filter.processSample c s 0).1 = 0 ∧ AllZero (Filter.processSample c s 0).2 := by
  have h0 : s.getD 0 0 = 0 := getD_of_allZero h 0
  constructor
  · simp only [Filter.processSample, h0]
    ring
  · intro x hx
    simp only [Filter.processSample, h0, List.mem_map, List.mem_range] at hx
    obtain ⟨j, _, hj⟩ := hx
    rw [← hj]
    split_ifs
    · rw [getD_of_allZero h (j + 1)]
      ring
    · ring

/-- A zero block into a filter loop with a zero history: zeros come out, the history stays
zero. -/
theorem processSamples_zero (c : List ℝ) (n : ℕ) (s : List ℝ) (h : AllZero s) :
    (Filter.processSamples c s (List.replicate n 0)).1 = List.replicate n 0 ∧
    AllZero (Filter.processSamples c s (List.replicate n 0)).2 := by
  induction n generalizing s with
  | zero => exact ⟨rfl, h⟩
  | succ n ih =>
    have hs := processSample_zero c s h
    have hr := ih (Filter.processSample c s 0).2 hs.2
    simp only [List.replicate_succ, Filter.processSamples]
    exact ⟨by rw [hs.1, hr.1], hr.2⟩

/-- After `check` a zero history is still zero. -/
theorem check_allZero (f : Filter) (h : AllZero f.state) : AllZero f.check.state := by
  unfold Filter.check
  split_ifs
  · exact allZero_replicate _
  · exact h

/-- A zero block into a filter with a zero history: zeros come out, the history stays zero. -/
theorem filter_process_zero (f : Filter) (n : ℕ) (h : AllZero f.state) :
    (f.process (List.replicate n 0)).1 = List.replicate n 0 ∧
    AllZero (f.process (List.replicate n 0)).2.state :=
  processSamples_zero _ n _ (check_allZero f h)

/-- A zero block into a gain stage: zeros come out, whatever the ramp does. -/
theorem gain_process_zero (g : Gain) (n : ℕ) :
    (g.process (List.replicate n 0)).1 = List.replicate n 0 := by
  induction n generalizing g with
  | zero => rfl
  | succ n ih =>
    simp only [List.replicate_succ, Gain.process, ih, zero_mul]

/-- The stage 1 shaping function maps zero to zero. -/
theorem shape1_at_zero : shape1 0 = 0 := by
  simp [shape1]

/-- The stage 2 shaping function maps zero to zero. -/
theorem shape2_at_zero : shape2 0 = 0 := by
  simp [shape2]

/-- A zero block into a prepared chain with zero histories: zeros come out. -/
theorem chain_process_zero (c : Chain) (n : ℕ)
    (h1 : c.clipper1.functionToUse = shape1) (h2 : c.clipper2.functionToUse = shape2)
    (hz : HistoriesZero c) :
    (c.process (List.replicate n 0)).1 = List.replicate n 0 := by
  obtain ⟨hpre, hlo, hhi, hpost⟩ := hz
  simp only [Chain.process, WaveShaper.process, ToneStack.process, h1, h2,
    gain_process_zero, (filter_process_zero _ n hpre).1, List.map_replicate, shape1_at_zero,
    shape2_at_zero, (filter_process_zero _ n hlo).1, (filter_process_zero _ n hhi).1,
    (filter_process_zero _ n hpost).1]

/-- The loop body of the mapper leaves all four filter histories as they are. -/
theorem updateChain_historiesZero (sustainDb volumeDb tone : ℝ) (toneBypass : Bool)
    (c : Chain) (hz : HistoriesZero c) :
    HistoriesZero (Processor.updateChain sustainDb volumeDb tone toneBypass c) := hz

/-- The loop body of `prepareToPlay` leaves all four filter histories zero. -/
theorem prepareChain_historiesZero (sampleRate : ℝ) (c : Chain) :
    HistoriesZero (Processor.prepareChain sampleRate c) :=
  ⟨allZero_replicate _, allZero_replicate _, allZero_replicate _, allZero_replicate _⟩

/-- After `prepareToPlay` all filter histories of both chains are zero. -/
theorem prepareToPlay_historiesZero (p : Processor) (sampleRate : ℝ) (samplesPerBlock : ℤ) :
    HistoriesZero (p.prepareToPlay sampleRate samplesPerBlock).chains.1 ∧
    HistoriesZero (p.prepareToPlay sampleRate samplesPerBlock).chains.2 :=
  ⟨updateChain_historiesZero _ _ _ _ _ (prepareChain_historiesZero sampleRate p.chains.1),
   updateChain_historiesZero _ _ _ _ _ (prepareChain_historiesZero sampleRate p.chains.2)⟩

/-! ## What the clearing loop does to one channel -/

/-- Clearing a channel turns its samples into zeros, as many as there were. -/
theorem clear_getChannel_self (b : AudioBuffer) (k : ℕ) :
    (b.clear k).getChannel k = (b.getChannel k).map (fun _ => (0 : ℝ)) := by
  by_cases hk : k < b.getNumChannels
  · exact getChannel_setChannel b k _ hk
  · simp only [AudioBuffer.getNumChannels, not_lt] at hk
    simp only [AudioBuffer.clear, AudioBuffer.setChannel, AudioBuffer.getChannel,
      List.getD_eq_getElem?_getD, List.getElem?_eq_none hk, Option.getD_none, List.map_nil]
    rw [List.getElem?_eq_none (by rw [List.length_set]; exact hk)]
    rfl

/-- Clearing a channel does not show in another channel. -/
theorem clear_getChannel_ne (b : AudioBuffer) {k c : ℕ} (h : k ≠ c) :
    (b.clear k).getChannel c = b.getChannel c :=
  getChannel_setChannel_ne b _ h

/-- Clearing the channels `s, s + 1, .., s + n - 1` zeroes exactly those. -/
theorem foldl_clear_range_getChannel (n s : ℕ) (b : AudioBuffer) (k : ℕ) :
    ((List.range' s n).foldl (fun b channel => b.clear channel) b).getChannel k
      = if s ≤ k ∧ k < s + n then (b.getChannel k).map (fun _ => (0 : ℝ))
        else b.getChannel k := by
  induction n generalizing s b with
  | zero =>
    have h0 : ¬ (s ≤ k ∧ k < s + 0) := by omega
    rw [if_neg h0]
    rfl
  | succ n ih =>
    rw [List.range'_succ, List.foldl_cons, ih]
    by_cases hks : s = k
    · subst hks
      have h1 : ¬ (s + 1 ≤ s ∧ s < s + 1 + n) := by omega
      have h2 : s ≤ s ∧ s < s + (n + 1) := by omega
      rw [if_neg h1, if_pos h2, clear_getChannel_self]
    · rw [clear_getChannel_ne b hks]
      by_cases hin : s + 1 ≤ k ∧ k < s + 1 + n
      · have h2 : s ≤ k ∧ k < s + (n + 1) := by omega
        rw [if_pos hin, if_pos h2]
      · have h2 : ¬ (s ≤ k ∧ k < s + (n + 1)) := by omega
        rw [if_neg hin, if_neg h2]

/-- The clearing loop zeroes the channels from the input count up to the output count and
leaves the samples of every other channel as they were. -/
theorem clearExtraChannels_getChannel (p : Processor) (b : AudioBuffer) (k : ℕ) :
    (p.clearExtraChannels b).getChannel k
      = if p.totalNumInputChannels ≤ k ∧ k < p.totalNumOutputChannels then
          (b.getChannel k).map (fun _ => (0 : ℝ))
        else b.getChannel k := by
  unfold Processor.clearExtraChannels
  rw [foldl_clear_range_getChannel]
  by_cases h : p.totalNumInputChannels ≤ k ∧ k < p.totalNumOutputChannels
  · have h2 : p.totalNumInputChannels ≤ k ∧
        k < p.totalNumInputChannels + (p.totalNumOutputChannels - p.totalNumInputChannels) := by
      omega
    rw [if_pos h, if_pos h2]
  · have h2 : ¬ (p.totalNumInputChannels ≤ k ∧
        k < p.totalNumInputChannels + (p.totalNumOutputChannels - p.totalNumInputChannels)) := by
      omega
    rw [if_neg h, if_neg h2]

/-- The clearing loop keeps a silent channel silent and of the same length. -/
theorem clearExtraChannels_allZero (p : Processor) (b : AudioBuffer) (k : ℕ)
    (h : AllZero (b.getChannel k)) :
    (p.clearExtraChannels b).getChannel k = List.replicate (b.getChannel k).length 0 := by
  rw [clearExtraChannels_getChannel]
  split_ifs
  · simp
  · exact eq_replicate_of_allZero h

/-! ## The two branches of `processBlock` with the pedal on -/

/-- With the pedal on and a one-channel buffer, `processBlock` maps the parameters and runs
chain 0 over channel 0 of the buffer left by the clearing loop. -/
theorem processBlock_mono (p : Processor) (b : AudioBuffer)
    (hon : p.apvts.PEDALON > 0.5) (h1 : b.getNumChannels = 1) :
    p.processBlock b
      = ({ p.updateDSPFromParameters with
            chains :=
              ((p.updateDSPFromParameters.chains.1.process
                  ((p.clearExtraChannels b).getChannel 0)).2,
               p.updateDSPFromParameters.chains.2) },
         (p.clearExtraChannels b).setChannel 0
           (p.updateDSPFromParameters.chains.1.process
              ((p.clearExtraChannels b).getChannel 0)).1) := by
  have h1c : (p.clearExtraChannels b).getNumChannels = 1 := by
    rw [clearExtraChannels_getNumChannels, h1]
  simp only [Processor.processBlock, hon, decide_True, not_true_eq_false, if_false, h1c,
    if_true]

/-- With the pedal on and a buffer of two channels or more, `processBlock` maps the
parameters and runs chain 0 over channel 0 and chain 1 over channel 1 of the buffer left by
the clearing loop. -/
theorem processBlock_stereo (p : Processor) (b : AudioBuffer)
    (hon : p.apvts.PEDALON > 0.5) (h2 : 2 ≤ b.getNumChannels) :
    p.processBlock b
      = ({ p.updateDSPFromParameters with
            chains :=
              ((p.updateDSPFromParameters.chains.1.process
                  ((p.clearExtraChannels b).getChannel 0)).2,
               (p.updateDSPFromParameters.chains.2.process
                  ((p.clearExtraChannels b).getChannel 1)).2) },
         ((p.clearExtraChannels b).setChannel 0
            (p.updateDSPFromParameters.chains.1.process
              ((p.clearExtraChannels b).getChannel 0)).1).setChannel 1
           (p.updateDSPFromParameters.chains.2.process
              ((p.clearExtraChannels b).getChannel 1)).1) := by
  have h2c : (p.clearExtraChannels b).getNumChannels ≠ 1 := by
    rw [clearExtraChannels_getNumChannels]
    omega
  simp only [Processor.processBlock, hon, decide_True, not_true_eq_false, if_false, h2c]

/-- In the two-channel branch the samples left in channel 0 are those chain 0 produces. -/
theorem processBlock_stereo_left (p : Processor) (b : AudioBuffer)
    (hon : p.apvts.PEDALON > 0.5) (h2 : 2 ≤ b.getNumChannels) :
    (p.processBlock b).2.getChannel 0
      = (p.updateDSPFromParameters.chains.1.process
          ((p.clearExtraChannels b).getChannel 0)).1 := by
  rw [processBlock_stereo p b hon h2, getChannel_setChannel_ne _ _ (by decide),
    getChannel_setChannel _ _ _ (by rw [clearExtraChannels_getNumChannels]; omega)]

/-- In the two-channel branch the samples left in channel 1 are those chain 1 produces. -/
theorem processBlock_stereo_right (p : Processor) (b : AudioBuffer)
    (hon : p.apvts.PEDALON > 0.5) (h2 : 2 ≤ b.getNumChannels) :
    (p.processBlock b).2.getChannel 1
      = (p.updateDSPFromParameters.chains.2.process
          ((p.clearExtraChannels b).getChannel 1)).1 := by
  rw [processBlock_stereo p b hon h2,
    getChannel_setChannel _ _ _
      (by rw [setChannel_getNumChannels, clearExtraChannels_getNumChannels]; omega)]

/-! ## Stereo independence -/

/-- C13: right after `prepareToPlay`, with the pedal on and a two-channel buffer of any
length and any content in channel 0, a channel 1 that holds zeros only comes back holding
zeros only, as many as went in. -/
theorem processBlock_silent_channel_stays_silent (q : Processor) (sampleRate : ℝ)
    (samplesPerBlock : ℤ) (b : AudioBuffer)
    (hon : q.apvts.PEDALON > 0.5) (hst : b.getNumChannels = 2)
    (hz : ∀ x ∈ b.getChannel 1, x = 0) :
    ((q.prepareToPlay sampleRate samplesPerBlock).processBlock b).2.getChannel 1
        = List.replicate (b.getChannel 1).length 0 ∧
    ∀ y ∈ ((q.prepareToPlay sampleRate samplesPerBlock).processBlock b).2.getChannel 1,
      y = 0 := by
  have hon2 : (q.prepareToPlay sampleRate samplesPerBlock).apvts.PEDALON > 0.5 := hon
  have hsh := updateDSPFromParameters_shapersInstalled _
    (prepareToPlay_shapersInstalled q sampleRate samplesPerBlock)
  have hhz : HistoriesZero
      (q.prepareToPlay sampleRate samplesPerBlock).updateDSPFromParameters.chains.2 :=
    updateChain_historiesZero _ _ _ _ _
      (prepareToPlay_historiesZero q sampleRate samplesPerBlock).2
  have hout : ((q.prepareToPlay sampleRate samplesPerBlock).processBlock b).2.getChannel 1
      = List.replicate (b.getChannel 1).length 0 := by
    rw [processBlock_stereo_right _ b hon2 (by omega), clearExtraChannels_allZero _ b 1 hz]
    exact chain_process_zero _ _ hsh.2.2.1 hsh.2.2.2 hhz
  refine ⟨hout, ?_⟩
  rw [hout]
  exact allZero_replicate _

/-- C13 on the buffer `[[1, 2], [0, 0]]`: channel 1 comes back as `[0, 0]`. -/
theorem processBlock_silent_channel_stays_silent_witness :
    (sampleProcessor ⟨0.5, 0.5, 0, 1, 1⟩ 2 2).apvts.PEDALON > 0.5 ∧
    (((sampleProcessor ⟨0.5, 0.5, 0, 1, 1⟩ 2 2).prepareToPlay 44100 512).processBlock
      ⟨[[1, 2], [0, 0]]⟩).2.getChannel 1 = [0, 0] := by
  have hon : (sampleProcessor ⟨0.5, 0.5, 0, 1, 1⟩ 2 2).apvts.PEDALON > 0.5 := by
    norm_num [sampleProcessor]
  have h := (processBlock_silent_channel_stays_silent
    (sampleProcessor ⟨0.5, 0.5, 0, 1, 1⟩ 2 2) 44100 512 ⟨[[1, 2], [0, 0]]⟩ hon rfl
    (by simp [AudioBuffer.getChannel])).1
  exact ⟨hon, by simpa [AudioBuffer.getChannel] using h⟩

/-- The chain the mapper leaves at position 0 depends on the parameters and on the chain at
position 0 only, and likewise at position 1. -/
theorem updateDSPFromParameters_chains_congr (p q : Processor) (hpar : p.apvts = q.apvts) :
    (p.chains.1 = q.chains.1 →
      p.updateDSPFromParameters.chains.1 = q.updateDSPFromParameters.chains.1) ∧
    (p.chains.2 = q.chains.2 →
      p.updateDSPFromParameters.chains.2 = q.updateDSPFromParameters.chains.2) := by
  constructor <;> intro hc <;>
    simp only [Processor.updateDSPFromParameters, hpar, hc]

/-- C14: for buffers of two channels, the pedal on and the same channel counts, two runs of
`processBlock` with the same parameter values, the same samples in channel 0 and the same
state of chain 0 leave the same samples in channel 0 and the same state of chain 0, whatever
channel 1 and chain 1 hold; and the same with the roles of the two channels exchanged. -/
theorem processBlock_dual_mono (p q : Processor) (b c : AudioBuffer)
    (hpar : p.apvts = q.apvts)
    (hin : p.totalNumInputChannels = q.totalNumInputChannels)
    (hout : p.totalNumOutputChannels = q.totalNumOutputChannels)
    (hon : p.apvts.PEDALON > 0.5)
    (hb : b.getNumChannels = 2) (hc : c.getNumChannels = 2) :
    (p.chains.1 = q.chains.1 → b.getChannel 0 = c.getChannel 0 →
      (p.processBlock b).2.getChannel 0 = (q.processBlock c).2.getChannel 0 ∧
      (p.processBlock b).1.chains.1 = (q.processBlock c).1.chains.1) ∧
    (p.chains.2 = q.chains.2 → b.getChannel 1 = c.getChannel 1 →
      (p.processBlock b).2.getChannel 1 = (q.processBlock c).2.getChannel 1 ∧
      (p.processBlock b).1.chains.2 = (q.processBlock c).1.chains.2) := by
  have honq : q.apvts.PEDALON > 0.5 := hpar ▸ hon
  have hcl : ∀ k, b.getChannel k = c.getChannel k →
      (p.clearExtraChannels b).getChannel k = (q.clearExtraChannels c).getChannel k := by
    intro k hk
    rw [clearExtraChannels_getChannel, clearExtraChannels_getChannel, hin, hout, hk]
  have hu := updateDSPFromParameters_chains_congr p q hpar
  constructor
  · intro h0 hk
    rw [processBlock_stereo_left p b hon (by omega),
      processBlock_stereo_left q c honq (by omega),
      processBlock_stereo p b hon (by omega), processBlock_stereo q c honq (by omega),
      hu.1 h0, hcl 0 hk]
    exact ⟨rfl, rfl⟩
  · intro h1 hk
    rw [processBlock_stereo_right p b hon (by omega),
      processBlock_stereo_right q c honq (by omega),
      processBlock_stereo p b hon (by omega), processBlock_stereo q c honq (by omega),
      hu.2 h1, hcl 1 hk]
    exact ⟨rfl, rfl⟩

/-- C14 on two runs that differ in the state of chain 1 and in the samples of channel 1:
channel 0 and chain 0 come out the same. -/
theorem processBlock_dual_mono_witness :
    (sampleProcessor ⟨0.5, 0.5, 0, 1, 1⟩ 2 2).apvts.PEDALON > 0.5 ∧
    ((sampleProcessor ⟨0.5, 0.5, 0, 1, 1⟩ 2 2).processBlock ⟨[[1, 2], [3, 4]]⟩).2.getChannel 0
      = ((sampleRampProcessor ⟨0.5, 0.5, 0, 1, 1⟩).processBlock
          ⟨[[1, 2], [5, 6]]⟩).2.getChannel 0 ∧
    ((sampleProcessor ⟨0.5, 0.5, 0, 1, 1⟩ 2 2).processBlock ⟨[[1, 2], [3, 4]]⟩).1.chains.1
      = ((sampleRampProcessor ⟨0.5, 0.5, 0, 1, 1⟩).processBlock
          ⟨[[1, 2], [5, 6]]⟩).1.chains.1 := by
  have hon : (sampleProcessor ⟨0.5, 0.5, 0, 1, 1⟩ 2 2).apvts.PEDALON > 0.5 := by
    norm_num [sampleProcessor]
  exact ⟨hon,
    (processBlock_dual_mono (sampleProcessor ⟨0.5, 0.5, 0, 1, 1⟩ 2 2)
      (sampleRampProcessor ⟨0.5, 0.5, 0, 1, 1⟩) ⟨[[1, 2], [3, 4]]⟩ ⟨[[1, 2], [5, 6]]⟩
      rfl rfl rfl hon rfl rfl).1 rfl rfl⟩

/-! ## The extra output channels -/

/-- C15: the loop at the head of `processBlock` sets every sample of each channel from
`totalNumInputChannels` up to, not including, `totalNumOutputChannels` to zero and leaves the
channels below `totalNumInputChannels` untouched. It runs before the bypass check, so with
the pedal off the buffer returned is the cleared one and those channels hold zeros; and it
runs before any processing, so with the pedal on the chains are fed from the cleared
buffer. -/
theorem processBlock_clears_extra_channels (p : Processor) (b : AudioBuffer) :
    (∀ c, p.totalNumInputChannels ≤ c → c < p.totalNumOutputChannels →
      (p.clearExtraChannels b).getChannel c = List.replicate (b.getChannel c).length 0) ∧
    (∀ c, c < p.totalNumInputChannels →
      (p.clearExtraChannels b).channels[c]? = b.channels[c]?) ∧
    (¬ (p.apvts.PEDALON > 0.5) →
      (p.processBlock b).2 = p.clearExtraChannels b ∧
      ∀ c, p.totalNumInputChannels ≤ c → c < p.totalNumOutputChannels →
        (p.processBlock b).2.getChannel c = List.replicate (b.getChannel c).length 0) ∧
    (p.apvts.PEDALON > 0.5 →
      (b.getNumChannels = 1 →
        (p.processBlock b).2.getChannel 0
          = (p.updateDSPFromParameters.chains.1.process
              ((p.clearExtraChannels b).getChannel 0)).1) ∧
      (2 ≤ b.getNumChannels →
        (p.processBlock b).2.getChannel 0
          = (p.updateDSPFromParameters.chains.1.process
              ((p.clearExtraChannels b).getChannel 0)).1 ∧
        (p.processBlock b).2.getChannel 1
          = (p.updateDSPFromParameters.chains.2.process
              ((p.clearExtraChannels b).getChannel 1)).1)) := by
  have hclear : ∀ c, p.totalNumInputChannels ≤ c → c < p.totalNumOutputChannels →
      (p.clearExtraChannels b).getChannel c = List.replicate (b.getChannel c).length 0 := by
    intro c h1 h2
    rw [clearExtraChannels_getChannel, if_pos ⟨h1, h2⟩]
    simp
  refine ⟨hclear, fun c hc => clearExtraChannels_channels p b c (Or.inl hc), ?_, ?_⟩
  · intro hoff
    rw [processBlock_pedal_off p b hoff]
    exact ⟨rfl, hclear⟩
  · intro hon
    refine ⟨fun h1 => ?_, fun h2 =>
      ⟨processBlock_stereo_left p b hon h2, processBlock_stereo_right p b hon h2⟩⟩
    rw [processBlock_mono p b hon h1,
      getChannel_setChannel _ _ _ (by rw [clearExtraChannels_getNumChannels]; omega)]

/-- C15 with one input channel, two output channels, the pedal off and the buffer
`[[1, 2], [3, 4]]`: channel 1 comes back as `[0, 0]`, channel 0 as it was. -/
theorem processBlock_clears_extra_channels_witness :
    ¬ ((sampleProcessor ⟨0.5, 0.5, 0, 0, 1⟩ 1 2).apvts.PEDALON > 0.5) ∧
    ((sampleProcessor ⟨0.5, 0.5, 0, 0, 1⟩ 1 2).processBlock
      ⟨[[1, 2], [3, 4]]⟩).2.getChannel 1 = [0, 0] ∧
    ((sampleProcessor ⟨0.5, 0.5, 0, 0, 1⟩ 1 2).clearExtraChannels
      ⟨[[1, 2], [3, 4]]⟩).channels[0]? = some [1, 2] := by
  have hoff : ¬ ((sampleProcessor ⟨0.5, 0.5, 0, 0, 1⟩ 1 2).apvts.PEDALON > 0.5) := by
    norm_num [sampleProcessor]
  have h := processBlock_clears_extra_channels (sampleProcessor ⟨0.5, 0.5, 0, 0, 1⟩ 1 2)
    ⟨[[1, 2], [3, 4]]⟩
  have h1 := (h.2.2.1 hoff).2 1 (by simp [sampleProcessor]) (by simp [sampleProcessor])
  have h0 := h.2.1 0 (by simp [sampleProcessor])
  exact ⟨hoff, by simpa [AudioBuffer.getChannel] using h1, by simpa using h0⟩

/-! ## `prepareToPlay` -/

/-- After `reset` a gain stage keeps its ramp duration. -/
theorem gain_reset_rampDurationSeconds (g : Gain) :
    g.reset.rampDurationSeconds = g.rampDurationSeconds := by
  unfold Gain.reset
  split_ifs <;> rfl

/-- After `setRampDurationSeconds` the ramp duration is the argument. -/
theorem setRampDurationSeconds_rampDurationSeconds (g : Gain) (d : ℝ) :
    (g.setRampDurationSeconds d).rampDurationSeconds = d := by
  unfold Gain.setRampDurationSeconds
  split_ifs with h
  · exact h
  · rw [gain_reset_rampDurationSeconds]

/-- C16: from any prior state `prepareToPlay` leaves both chains with the histories of the
pre high-pass, the low shelf, the high shelf and the post low-pass holding zeros only, the
pre high-pass with the high-pass coefficients for 30 Hz and the post low-pass with the
first-order low-pass coefficients for 5500 Hz at the new sample rate, and the ramp duration
of both gain stages at one millisecond. -/
theorem prepareToPlay_spec (p : Processor) (sampleRate : ℝ) (samplesPerBlock : ℤ) :
    (HistoriesZero (p.prepareToPlay sampleRate samplesPerBlock).chains.1 ∧
      HistoriesZero (p.prepareToPlay sampleRate samplesPerBlock).chains.2) ∧
    ((p.prepareToPlay sampleRate samplesPerBlock).chains.1.preHighPass.coefficients
        = Coefficients.makeHighPass sampleRate 30 ∧
      (p.prepareToPlay sampleRate samplesPerBlock).chains.2.preHighPass.coefficients
        = Coefficients.makeHighPass sampleRate 30) ∧
    ((p.prepareToPlay sampleRate samplesPerBlock).chains.1.postLowPass.coefficients
        = Coefficients.makeFirstOrderLowPass sampleRate 5500 ∧
      (p.prepareToPlay sampleRate samplesPerBlock).chains.2.postLowPass.coefficients
        = Coefficients.makeFirstOrderLowPass sampleRate 5500) ∧
    ((p.prepareToPlay sampleRate samplesPerBlock).chains.1.inputGain.rampDurationSeconds
        = 0.001 ∧
      (p.prepareToPlay sampleRate samplesPerBlock).chains.1.outputGain.rampDurationSeconds
        = 0.001 ∧
      (p.prepareToPlay sampleRate samplesPerBlock).chains.2.inputGain.rampDurationSeconds
        = 0.001 ∧
      (p.prepareToPlay sampleRate samplesPerBlock).chains.2.outputGain.rampDurationSeconds
        = 0.001) := by
  have e30 : (30.0 : ℝ) = 30 := by norm_num
  have e5500 : (5500.0 : ℝ) = 5500 := by norm_num
  refine ⟨prepareToPlay_historiesZero p sampleRate samplesPerBlock, ⟨?_, ?_⟩, ⟨?_, ?_⟩,
    ⟨?_, ?_, ?_, ?_⟩⟩
  · simp only [Processor.prepareToPlay, Processor.updateDSPFromParameters,
      Processor.updateChain, Processor.prepareChain, e30]
  · simp only [Processor.prepareToPlay, Processor.updateDSPFromParameters,
      Processor.updateChain, Processor.prepareChain, e30]
  · simp only [Processor.prepareToPlay, Processor.updateDSPFromParameters,
      Processor.updateChain, Processor.prepareChain, e5500]
  · simp only [Processor.prepareToPlay, Processor.updateDSPFromParameters,
      Processor.updateChain, Processor.prepareChain, e5500]
  · exact setRampDurationSeconds_rampDurationSeconds _ _
  · exact setRampDurationSeconds_rampDurationSeconds _ _
  · exact setRampDurationSeconds_rampDurationSeconds _ _
  · exact setRampDurationSeconds_rampDurationSeconds _ _

/-! ## The factory presets -/

/-- C17: whatever the array held before, `buildFactoryPresets` leaves exactly four presets,
named "Wall Of Sound", "Scooped Rhythm", "Tight Lead" and "Tone Bypass Hit" in this order;
the first one has sustain `0.9`, tone `0.42`, volume `0` dB, the tone stage enabled and the
pedal on; and building the table again gives the same table. -/
theorem buildFactoryPresets_table (old : List FactoryPreset) :
    (buildFactoryPresets old).length = 4 ∧
    (buildFactoryPresets old).map FactoryPreset.name
      = ["Wall Of Sound", "Scooped Rhythm", "Tight Lead", "Tone Bypass Hit"] ∧
    (∃ w : FactoryPreset, (buildFactoryPresets old)[0]? = some w ∧
      w.name = "Wall Of Sound" ∧ w.sustain = (0.9 : ℝ) ∧ w.tone = (0.42 : ℝ) ∧
      w.volumeDb = (0 : ℝ) ∧ w.toneEnabled = true ∧ w.pedalOn = true) ∧
    buildFactoryPresets (buildFactoryPresets old) = buildFactoryPresets old := by
  refine ⟨rfl, rfl, ⟨_, rfl, rfl, ?_, ?_, ?_, rfl, rfl⟩, rfl⟩
  · show (0.90 : ℝ) = 0.9
    norm_num
  · rfl
  · show (0.0 : ℝ) = 0
    norm_num

/-! ## What the mapper touches -/

/-- The call `setTargetValue` never changes the length of the ramp. -/
theorem setTargetValue_stepsToTarget (s : SmoothedValue) (v : ℝ) :
    (s.setTargetValue v).stepsToTarget = s.stepsToTarget := by
  unfold SmoothedValue.setTargetValue
  split_ifs <;> rfl

/-- A new target for a gain stage with a ramp restarts the countdown of the ramp. -/
theorem setTargetValue_countdown (s : SmoothedValue) (v : ℝ) (hv : v ≠ s.target)
    (hs : 0 < s.stepsToTarget) : (s.setTargetValue v).countdown = s.stepsToTarget := by
  unfold SmoothedValue.setTargetValue
  rw [if_neg hv, if_neg (not_le.mpr hs)]

/-- C18, the claim as stated fails: on a chain whose gain stages ramp over 44 steps and
rest at the target zero, the mapper changes more of the input gain stage than its target,
the countdown of the ramp goes from `0` to `44`. -/
theorem updateDSPFromParameters_restarts_ramp :
    (sampleRampProcessor ⟨0.5, 0.5, 0, 1, 1⟩).chains.2.inputGain.gain.countdown = 0 ∧
    (sampleRampProcessor
      ⟨0.5, 0.5, 0, 1, 1⟩).updateDSPFromParameters.chains.2.inputGain.gain.countdown = 44 ∧
    (sampleRampProcessor
      ⟨0.5, 0.5, 0, 1, 1⟩).updateDSPFromParameters.chains.2.inputGain.gain.countdown
      ≠ (sampleRampProcessor ⟨0.5, 0.5, 0, 1, 1⟩).chains.2.inputGain.gain.countdown := by
  have hne : decibelsToGain (jmapRange 0.5 0.0 1.0 15.0 45.0) ≠ sampleRampGain.gain.target := by
    rw [jmapRange_sustain, decibelsToGain_of_gt (by norm_num)]
    exact (Real.rpow_pos_of_pos (by norm_num) _).ne'
  have h44 : (sampleRampProcessor
      ⟨0.5, 0.5, 0, 1, 1⟩).updateDSPFromParameters.chains.2.inputGain.gain.countdown = 44 :=
    setTargetValue_countdown sampleRampGain.gain _ hne (by decide)
  refine ⟨rfl, h44, ?_⟩
  rw [h44]
  decide

/-- C18 as amended: the mapper never resets a filter history. For every state and snapshot
`updateDSPFromParameters` leaves, in both chains, the pre high-pass and the post low-pass
(coefficients and history), the histories of both shelving filters, the sample rate stored
in the tone stack, both wave shapers and the sample rate, ramp duration and ramp length of
both gain stages as they were, and outside the chains it changes nothing. What it may change
is the ramp of the two gain stages (target, and with it current value, countdown and step),
the stored tone and the coefficients of the two shelving filters. -/
theorem updateDSPFromParameters_frame (p : Processor) :
    (p.updateDSPFromParameters.chains.1.preHighPass = p.chains.1.preHighPass ∧
      p.updateDSPFromParameters.chains.1.postLowPass = p.chains.1.postLowPass ∧
      p.updateDSPFromParameters.chains.1.toneStack.lowShelf.state
        = p.chains.1.toneStack.lowShelf.state ∧
      p.updateDSPFromParameters.chains.1.toneStack.highShelf.state
        = p.chains.1.toneStack.highShelf.state ∧
      p.updateDSPFromParameters.chains.1.toneStack.sampleRate
        = p.chains.1.toneStack.sampleRate ∧
      p.updateDSPFromParameters.chains.1.clipper1 = p.chains.1.clipper1 ∧
      p.updateDSPFromParameters.chains.1.clipper2 = p.chains.1.clipper2) ∧
    (p.updateDSPFromParameters.chains.2.preHighPass = p.chains.2.preHighPass ∧
      p.updateDSPFromParameters.chains.2.postLowPass = p.chains.2.postLowPass ∧
      p.updateDSPFromParameters.chains.2.toneStack.lowShelf.state
        = p.chains.2.toneStack.lowShelf.state ∧
      p.updateDSPFromParameters.chains.2.toneStack.highShelf.state
        = p.chains.2.toneStack.highShelf.state ∧
      p.updateDSPFromParameters.chains.2.toneStack.sampleRate
        = p.chains.2.toneStack.sampleRate ∧
      p.updateDSPFromParameters.chains.2.clipper1 = p.chains.2.clipper1 ∧
      p.updateDSPFromParameters.chains.2.clipper2 = p.chains.2.clipper2) ∧
    (p.updateDSPFromParameters.chains.1.inputGain.sampleRate
        = p.chains.1.inputGain.sampleRate ∧
      p.updateDSPFromParameters.chains.1.inputGain.rampDurationSeconds
        = p.chains.1.inputGain.rampDurationSeconds ∧
      p.updateDSPFromParameters.chains.1.inputGain.gain.stepsToTarget
        = p.chains.1.inputGain.gain.stepsToTarget ∧
      p.updateDSPFromParameters.chains.1.outputGain.sampleRate
        = p.chains.1.outputGain.sampleRate ∧
      p.updateDSPFromParameters.chains.1.outputGain.rampDurationSeconds
        = p.chains.1.outputGain.rampDurationSeconds ∧
      p.updateDSPFromParameters.chains.1.outputGain.gain.stepsToTarget
        = p.chains.1.outputGain.gain.stepsToTarget) ∧
    (p.updateDSPFromParameters.chains.2.inputGain.sampleRate
        = p.chains.2.inputGain.sampleRate ∧
      p.updateDSPFromParameters.chains.2.inputGain.rampDurationSeconds
        = p.chains.2.inputGain.rampDurationSeconds ∧
      p.updateDSPFromParameters.chains.2.inputGain.gain.stepsToTarget
        = p.chains.2.inputGain.gain.stepsToTarget ∧
      p.updateDSPFromParameters.chains.2.outputGain.sampleRate
        = p.chains.2.outputGain.sampleRate ∧
      p.updateDSPFromParameters.chains.2.outputGain.rampDurationSeconds
        = p.chains.2.outputGain.rampDurationSeconds ∧
      p.updateDSPFromParameters.chains.2.outputGain.gain.stepsToTarget
        = p.chains.2.outputGain.gain.stepsToTarget) ∧
    (p.updateDSPFromParameters.currentSampleRate = p.currentSampleRate ∧
      p.updateDSPFromParameters.apvts = p.apvts ∧
      p.updateDSPFromParameters.totalNumInputChannels = p.totalNumInputChannels ∧
      p.updateDSPFromParameters.totalNumOutputChannels = p.totalNumOutputChannels ∧
      p.updateDSPFromParameters.factoryPresets = p.factoryPresets) :=
  ⟨⟨rfl, rfl, rfl, rfl, rfl, rfl, rfl⟩, ⟨rfl, rfl, rfl, rfl, rfl, rfl, rfl⟩,
   ⟨rfl, rfl, setTargetValue_stepsToTarget _ _, rfl, rfl, setTargetValue_stepsToTarget _ _⟩,
   ⟨rfl, rfl, setTargetValue_stepsToTarget _ _, rfl, rfl, setTargetValue_stepsToTarget _ _⟩,
   ⟨rfl, rfl, rfl, rfl, rfl⟩⟩

/-! ## Both chains get the same settings -/

/-- C20: after every run of the mapper the two chains hold the same input gain target, the
same output gain target and the same tone, and, when their tone stacks hold the same sample
rate, the same coefficients in both shelving filters. -/
theorem updateDSPFromParameters_chains_agree (p : Processor) :
    p.updateDSPFromParameters.chains.1.inputGain.gain.target
      = p.updateDSPFromParameters.chains.2.inputGain.gain.target ∧
    p.updateDSPFromParameters.chains.1.outputGain.gain.target
      = p.updateDSPFromParameters.chains.2.outputGain.gain.target ∧
    p.updateDSPFromParameters.chains.1.toneStack.tone
      = p.updateDSPFromParameters.chains.2.toneStack.tone ∧
    (p.updateDSPFromParameters.chains.1.toneStack.sampleRate
        = p.updateDSPFromParameters.chains.2.toneStack.sampleRate →
      p.updateDSPFromParameters.chains.1.toneStack.lowShelf.coefficients
        = p.updateDSPFromParameters.chains.2.toneStack.lowShelf.coefficients ∧
      p.updateDSPFromParameters.chains.1.toneStack.highShelf.coefficients
        = p.updateDSPFromParameters.chains.2.toneStack.highShelf.coefficients) := by
  refine ⟨?_, ?_, ?_, ?_⟩
  · simp only [Processor.updateDSPFromParameters, Processor.updateChain, Gain.setGainDecibels,
      Gain.setGainLinear, setTargetValue_target]
  · simp only [Processor.updateDSPFromParameters, Processor.updateChain, Gain.setGainDecibels,
      Gain.setGainLinear, setTargetValue_target]
  · simp only [Processor.updateDSPFromParameters, Processor.updateChain, setTone_tone]
  · intro hsr
    have hsr2 : p.chains.1.toneStack.sampleRate = p.chains.2.toneStack.sampleRate := hsr
    constructor <;>
      simp only [Processor.updateDSPFromParameters, Processor.updateChain, ToneStack.setTone,
        ToneStack.updateFilters, ToneStack.bassGainLinear, ToneStack.trebleGainLinear,
        ToneStack.bassGainDb, ToneStack.trebleGainDb, hsr2]

/-- C20 on a processor whose chains differ before the mapper runs: afterwards the input gain
targets, the tones and the low-shelf coefficients agree. -/
theorem updateDSPFromParameters_chains_agree_witness :
    (sampleRampProcessor ⟨0.5, 0.5, 0, 1, 1⟩).updateDSPFromParameters.chains.1.inputGain.gain.target
      = (sampleRampProcessor
          ⟨0.5, 0.5, 0, 1, 1⟩).updateDSPFromParameters.chains.2.inputGain.gain.target ∧
    (sampleRampProcessor
        ⟨0.5, 0.5, 0, 1, 1⟩).updateDSPFromParameters.chains.1.toneStack.lowShelf.coefficients
      = (sampleRampProcessor
          ⟨0.5, 0.5, 0, 1, 1⟩).updateDSPFromParameters.chains.2.toneStack.lowShelf.coefficients :=
  ⟨(updateDSPFromParameters_chains_agree (sampleRampProcessor ⟨0.5, 0.5, 0, 1, 1⟩)).1,
   ((updateDSPFromParameters_chains_agree (sampleRampProcessor ⟨0.5, 0.5, 0, 1, 1⟩)).2.2.2
      rfl).1⟩

/-! ## `ToneStack::prepare` -/

/-- The raw coefficients of a second-order section: the five values other than `a0`, each
divided by `a0`. -/
theorem assign_six (b0 b1 b2 a0 a1 a2 : ℝ) (h : a0 ≠ 0) :
    (Coefficients.assign [b0, b1, b2, a0, a1, a2]).coefficients
      = [b0 * (1 / a0), b1 * (1 / a0), b2 * (1 / a0), a1 * (1 / a0), a2 * (1 / a0)] := by
  have hr : List.range 6 = [0, 1, 2, 3, 4, 5] := by decide
  simp [Coefficients.assign, h, hr, List.filter_cons]

/-- The algebra behind the gain of a low shelf at frequency zero: with `A` the square root
of the gain factor, `c` the cosine of the corner angle and `β` the bandwidth term, numerator
and denominator share the factor `4 * (1 - c)`. -/
theorem shelf_dc (A c β : ℝ) (ha0 : A + 1 + (A - 1) * c + β ≠ 0) (h1c : 1 - c ≠ 0) :
    (A * (A + 1 - (A - 1) * c + β) * (1 / (A + 1 + (A - 1) * c + β))
        + A * 2 * (A - 1 - (A + 1) * c) * (1 / (A + 1 + (A - 1) * c + β))
        + A * (A + 1 - (A - 1) * c - β) * (1 / (A + 1 + (A - 1) * c + β)))
      / (1 + -2 * (A - 1 + (A + 1) * c) * (1 / (A + 1 + (A - 1) * c + β))
          + (A + 1 + (A - 1) * c - β) * (1 / (A + 1 + (A - 1) * c + β)))
      = A * A := by
  have hden : 1 + -2 * (A - 1 + (A + 1) * c) * (1 / (A + 1 + (A - 1) * c + β))
          + (A + 1 + (A - 1) * c - β) * (1 / (A + 1 + (A - 1) * c + β))
        = 4 * (1 - c) / (A + 1 + (A - 1) * c + β) := by
    field_simp
    ring
  have hnum : A * (A + 1 - (A - 1) * c + β) * (1 / (A + 1 + (A - 1) * c + β))
        + A * 2 * (A - 1 - (A + 1) * c) * (1 / (A + 1 + (A - 1) * c + β))
        + A * (A + 1 - (A - 1) * c - β) * (1 / (A + 1 + (A - 1) * c + β))
        = A * A * (4 * (1 - c)) / (A + 1 + (A - 1) * c + β) := by
    field_simp
    ring
  rw [hden, hnum]
  field_simp

/-- The gain at frequency zero of a low shelf is its gain factor, for a positive gain
factor, a positive `Q` and a corner between 2 Hz and half the sample rate. -/
theorem dcGain_makeLowShelf (sampleRate f Q g : ℝ) (hg : 0 < g) (hQ : 0 < Q)
    (hsr : 0 < sampleRate) (hf : 2 ≤ f) (hny : f ≤ sampleRate / 2) :
    dcGain (Coefficients.makeLowShelf sampleRate f Q g) = g := by
  have hA : 0 < Real.sqrt g := Real.sqrt_pos.mpr hg
  have hAA : Real.sqrt g * Real.sqrt g = g := Real.mul_self_sqrt hg.le
  have hmaxA : max 0 (Real.sqrt g) = Real.sqrt g := max_eq_right hA.le
  have hmaxf : max f 2 = f := max_eq_left hf
  have hf0 : 0 < f := by linarith
  have hω0 : 0 < 2 * Real.pi * f / sampleRate := by
    have := Real.pi_pos
    positivity
  have hωπ : 2 * Real.pi * f / sampleRate ≤ Real.pi := by
    rw [div_le_iff₀ hsr]
    nlinarith [Real.pi_pos]
  have hcos1 : Real.cos (2 * Real.pi * f / sampleRate) < 1 := by
    have h := Real.cos_lt_cos_of_nonneg_of_le_pi le_rfl hωπ hω0
    rwa [Real.cos_zero] at h
  have hcos2 : -1 ≤ Real.cos (2 * Real.pi * f / sampleRate) := Real.neg_one_le_cos _
  have hsin : 0 ≤ Real.sin (2 * Real.pi * f / sampleRate) :=
    Real.sin_nonneg_of_nonneg_of_le_pi hω0.le hωπ
  have hβ : 0 ≤ Real.sin (2 * Real.pi * f / sampleRate) * Real.sqrt (Real.sqrt g) / Q :=
    div_nonneg (mul_nonneg hsin (Real.sqrt_nonneg _)) hQ.le
  have ha0 : 0 < Real.sqrt g + 1
      + (Real.sqrt g - 1) * Real.cos (2 * Real.pi * f / sampleRate)
      + Real.sin (2 * Real.pi * f / sampleRate) * Real.sqrt (Real.sqrt g) / Q := by
    nlinarith [mul_nonneg hA.le (by linarith : 0 ≤ 1 + Real.cos (2 * Real.pi * f / sampleRate))]
  have h1c : (1 : ℝ) - Real.cos (2 * Real.pi * f / sampleRate) ≠ 0 := by
    intro h
    linarith
  simp only [dcGain, Coefficients.makeLowShelf, hmaxA, hmaxf]
  rw [assign_six _ _ _ _ _ _ ha0.ne']
  simp only [List.getD_cons_zero, List.getD_cons_succ]
  exact (shelf_dc _ _ _ ha0.ne' h1c).trans hAA

/-- The call `prepare` leaves the low shelf with the coefficients for the stored tone. -/
theorem prepare_lowShelf_coefficients (ts : ToneStack) (sampleRate : ℝ) :
    (ts.prepare sampleRate).lowShelf.coefficients
      = Coefficients.makeLowShelf sampleRate 450 0.7071 ts.bassGainLinear := by
  have e450 : (450.0 : ℝ) = 450 := by norm_num
  simp only [ToneStack.prepare, ToneStack.updateFilters, ToneStack.bassGainLinear,
    ToneStack.bassGainDb, e450]

/-- The call `prepare` leaves the high shelf with the coefficients for the stored tone. -/
theorem prepare_highShelf_coefficients (ts : ToneStack) (sampleRate : ℝ) :
    (ts.prepare sampleRate).highShelf.coefficients
      = Coefficients.makeHighShelf sampleRate 1500 0.7071 ts.trebleGainLinear := by
  have e1500 : (1500.0 : ℝ) = 1500 := by norm_num
  simp only [ToneStack.prepare, ToneStack.updateFilters, ToneStack.trebleGainLinear,
    ToneStack.trebleGainDb, e1500]

/-- C19, the claim as stated fails: a tone stack with the struct defaults gets the low-shelf
coefficients for the gain `10 ^ (0.5 / 20)` of the default tone from `prepare (48000)`, but
once `setTone (1)` has been called `prepare (48000)` keeps the tone `1` and leaves other
low-shelf coefficients. -/
theorem toneStack_prepare_keeps_tone :
    (sampleToneStack.prepare 48000).lowShelf.coefficients
      = Coefficients.makeLowShelf 48000 450 0.7071 ((10 : ℝ) ^ ((0.5 : ℝ) / 20)) ∧
    ((sampleToneStack.setTone 1).prepare 48000).tone = 1 ∧
    ((sampleToneStack.setTone 1).prepare 48000).lowShelf.coefficients
      ≠ Coefficients.makeLowShelf 48000 450 0.7071 ((10 : ℝ) ^ ((0.5 : ℝ) / 20)) := by
  have hten : (1 : ℝ) < 10 := by norm_num
  have hc1 : max (0 : ℝ) (min 1 1) = 1 := by norm_num
  have ht1 : (sampleToneStack.setTone 1).tone = 1 := by rw [setTone_tone, hc1]
  have hdef : sampleToneStack.bassGainLinear = (10 : ℝ) ^ ((0.5 : ℝ) / 20) := by
    have ht : sampleToneStack.tone = 0.5 := rfl
    rw [bassGainLinear_eq _ (by rw [ht]; norm_num), ht]
    norm_num
  have hone : (sampleToneStack.setTone 1).bassGainLinear = (10 : ℝ) ^ ((-2.5 : ℝ) / 20) := by
    rw [bassGainLinear_eq _ (by rw [ht1]), ht1]
    norm_num
  refine ⟨by rw [prepare_lowShelf_coefficients, hdef], ht1, ?_⟩
  rw [prepare_lowShelf_coefficients, hone]
  intro h
  have hdc := congrArg dcGain h
  rw [dcGain_makeLowShelf 48000 450 0.7071 _ (Real.rpow_pos_of_pos (by norm_num) _)
      (by norm_num) (by norm_num) (by norm_num) (by norm_num),
    dcGain_makeLowShelf 48000 450 0.7071 _ (Real.rpow_pos_of_pos (by norm_num) _)
      (by norm_num) (by norm_num) (by norm_num) (by norm_num)] at hdc
  have hlt : (10 : ℝ) ^ ((-2.5 : ℝ) / 20) < (10 : ℝ) ^ ((0.5 : ℝ) / 20) :=
    Real.rpow_lt_rpow_of_exponent_lt hten (by norm_num)
  linarith

/-- C19 as amended: for every tone stack state `prepare` stores the new sample rate, keeps
the stored tone, leaves both shelving filter histories holding zeros only, and leaves the
coefficients computed for the stored tone at the new sample rate: the low shelf at 450 Hz
and the high shelf at 1500 Hz with `Q = 0.7071` and the linear gains of the stored tone.
When the stored tone is `0.5`, as it is before the first `setTone`, these are the
coefficients for the gains `10 ^ (0.5 / 20)` and `10 ^ (1.5 / 20)`. -/
theorem toneStack_prepare_spec (ts : ToneStack) (sampleRate : ℝ) :
    (ts.prepare sampleRate).sampleRate = sampleRate ∧
    (ts.prepare sampleRate).tone = ts.tone ∧
    AllZero (ts.prepare sampleRate).lowShelf.state ∧
    AllZero (ts.prepare sampleRate).highShelf.state ∧
    (ts.prepare sampleRate).lowShelf.coefficients
      = Coefficients.makeLowShelf sampleRate 450 0.7071 (decibelsToGain (3.5 - 6 * ts.tone)) ∧
    (ts.prepare sampleRate).highShelf.coefficients
      = Coefficients.makeHighShelf sampleRate 1500 0.7071
          (decibelsToGain (-5 + 13 * ts.tone)) ∧
    (ts.tone = 0.5 →
      (ts.prepare sampleRate).lowShelf.coefficients
        = Coefficients.makeLowShelf sampleRate 450 0.7071 ((10 : ℝ) ^ ((0.5 : ℝ) / 20)) ∧
      (ts.prepare sampleRate).highShelf.coefficients
        = Coefficients.makeHighShelf sampleRate 1500 0.7071
            ((10 : ℝ) ^ ((1.5 : ℝ) / 20))) := by
  refine ⟨rfl, rfl, allZero_replicate _, allZero_replicate _, ?_, ?_, ?_⟩
  · rw [prepare_lowShelf_coefficients, ToneStack.bassGainLinear, bassGainDb_eq]
  · rw [prepare_highShelf_coefficients, ToneStack.trebleGainLinear, trebleGainDb_eq]
  · intro ht
    constructor
    · rw [prepare_lowShelf_coefficients, bassGainLinear_eq _ (by rw [ht]; norm_num), ht]
      norm_num
    · rw [prepare_highShelf_coefficients, trebleGainLinear_eq _ (by rw [ht]; norm_num), ht]
      norm_num

/-- C19 as amended, on a tone stack with the struct defaults, whose stored tone is `0.5`. -/
theorem toneStack_prepare_spec_witness :
    sampleToneStack.tone = 0.5 ∧
    (sampleToneStack.prepare 48000).highShelf.coefficients
      = Coefficients.makeHighShelf 48000 1500 0.7071 ((10 : ℝ) ^ ((1.5 : ℝ) / 20)) :=
  ⟨rfl, ((toneStack_prepare_spec sampleToneStack 48000).2.2.2.2.2.2 rfl).2⟩

/-! ## The pedal off leaves the chains alone -/

/-- C24: with the pedal off `processBlock` returns before the mapper and the chains run, so
the processor it leaves is the processor it found: both chains, with their gain targets and
ramp positions, all filter coefficients, all filter histories and the stored tone, are
exactly as before, whatever the other four parameters hold. -/
theorem processBlock_bypass_keeps_state (p : Processor) (b : AudioBuffer)
    (hoff : ¬ (p.apvts.PEDALON > 0.5)) :
    (p.processBlock b).1 = p ∧
    (p.processBlock b).1.chains.1 = p.chains.1 ∧
    (p.processBlock b).1.chains.2 = p.chains.2 := by
  rw [processBlock_pedal_off p b hoff]
  exact ⟨rfl, rfl, rfl⟩

/-- C24 on a processor with ramping gain stages, the pedal off and sustain, tone, volume and
tone switch away from their defaults. -/
theorem processBlock_bypass_keeps_state_witness :
    ¬ ((sampleRampProcessor ⟨0.9, 0.1, -12, 0, 0⟩).apvts.PEDALON > 0.5) ∧
    ((sampleRampProcessor ⟨0.9, 0.1, -12, 0, 0⟩).processBlock ⟨[[1, 2], [3, 4]]⟩).1
      = sampleRampProcessor ⟨0.9, 0.1, -12, 0, 0⟩ :=
  ⟨by norm_num [sampleRampProcessor, sampleProcessor],
   (processBlock_bypass_keeps_state (sampleRampProcessor ⟨0.9, 0.1, -12, 0, 0⟩)
      ⟨[[1, 2], [3, 4]]⟩ (by norm_num [sampleRampProcessor, sampleProcessor])).1⟩

/-! ## Monotonicity and limits of the shaping functions -/

/-- The hyperbolic tangent is strictly increasing. -/
theorem tanh_strictMono : StrictMono Real.tanh := by
  intro a b hab
  have hs : 0 < Real.sinh (b - a) := Real.sinh_pos_iff.mpr (sub_pos.mpr hab)
  rw [Real.sinh_sub] at hs
  rw [Real.tanh_eq_sinh_div_cosh, Real.tanh_eq_sinh_div_cosh,
    div_lt_div_iff₀ (Real.cosh_pos a) (Real.cosh_pos b)]
  linarith

/-- The stage 1 shaping function is strictly increasing. -/
theorem shape1_strictMono : StrictMono shape1 := by
  intro a b hab
  simp only [shape1]
  have h : 3.0 * a / 0.9 < (3.0 : ℝ) * b / 0.9 := by
    apply div_lt_div_of_pos_right _ (by norm_num)
    linarith
  have := tanh_strictMono h
  linarith

/-- The stage 2 shaping function is strictly increasing. -/
theorem shape2_strictMono : StrictMono shape2 := by
  intro a b hab
  simp only [shape2]
  have h : 5.0 * (a + 0.25) < (5.0 : ℝ) * (b + 0.25) := by linarith
  have := tanh_strictMono h
  linarith

/-- C23: both clipper functions are strictly increasing over the reals, so is their cascade
`shape2 (shape1 x)`, and since both map zero to zero the cascade is positive for positive
`x`, negative for negative `x` and zero at zero. -/
theorem clippers_strictMono :
    StrictMono shape1 ∧ StrictMono shape2 ∧ StrictMono (fun x => shape2 (shape1 x)) ∧
    shape1 0 = 0 ∧ shape2 0 = 0 ∧
    ∀ x : ℝ, (0 < x → 0 < shape2 (shape1 x)) ∧ (x < 0 → shape2 (shape1 x) < 0) ∧
      (x = 0 → shape2 (shape1 x) = 0) := by
  have hc : StrictMono (fun x => shape2 (shape1 x)) :=
    fun a b hab => shape2_strictMono (shape1_strictMono hab)
  have h0 : shape2 (shape1 0) = 0 := by rw [shape1_at_zero, shape2_at_zero]
  refine ⟨shape1_strictMono, shape2_strictMono, hc, shape1_at_zero, shape2_at_zero,
    fun x => ⟨fun hx => ?_, fun hx => ?_, fun hx => ?_⟩⟩
  · have := hc hx
    simp only [h0] at this
    exact this
  · have := hc hx
    simp only [h0] at this
    exact this
  · rw [hx, h0]

/-- C23 at the inputs `1` and `-1`: the cascade is positive at `1` and negative at `-1`. -/
theorem clippers_strictMono_witness :
    0 < shape2 (shape1 1) ∧ shape2 (shape1 (-1)) < 0 :=
  ⟨(clippers_strictMono.2.2.2.2.2 1).1 (by norm_num),
   (clippers_strictMono.2.2.2.2.2 (-1)).2.1 (by norm_num)⟩

/-- Towards plus infinity the hyperbolic tangent tends to one. -/
theorem tendsto_tanh_atTop : Filter.Tendsto Real.tanh Filter.atTop (nhds 1) := by
  have hlow : ∀ x : ℝ, 1 - Real.exp (-x) ≤ Real.tanh x := by
    intro x
    have hc := Real.cosh_pos x
    have h1 : 1 ≤ Real.cosh x := Real.one_le_cosh x
    have he : 0 < Real.exp (-x) := Real.exp_pos _
    have hs : Real.cosh x - Real.sinh x = Real.exp (-x) := Real.cosh_sub_sinh x
    rw [Real.tanh_eq_sinh_div_cosh, le_div_iff₀ hc]
    nlinarith
  have hlim : Filter.Tendsto (fun x : ℝ => 1 - Real.exp (-x)) Filter.atTop (nhds 1) := by
    have h := (tendsto_const_nhds (x := (1 : ℝ))).sub Real.tendsto_exp_neg_atTop_nhds_zero
    simpa using h
  exact tendsto_of_tendsto_of_tendsto_of_le_of_le hlim tendsto_const_nhds hlow
    (fun x => (tanh_lt_one x).le)

/-- Towards minus infinity the hyperbolic tangent tends to minus one. -/
theorem tendsto_tanh_atBot : Filter.Tendsto Real.tanh Filter.atBot (nhds (-1)) := by
  have h := (tendsto_tanh_atTop.comp Filter.tendsto_neg_atBot_atTop).neg
  refine h.congr fun x => ?_
  simp [Real.tanh_neg]

/-- C22: the range of the stage 2 shaping function over the reals is asymmetric. For every
real `x` the value lies strictly between `-0.8 * (1 + tanh 1.25)` and
`0.8 * (1 - tanh 1.25)`, so neither bound is attained, and the function tends to the lower
bound towards minus infinity and to the upper bound towards plus infinity. -/
theorem shape2_range :
    (∀ x : ℝ, -0.8 * (1 + Real.tanh 1.25) < shape2 x ∧
      shape2 x < 0.8 * (1 - Real.tanh 1.25)) ∧
    Filter.Tendsto shape2 Filter.atBot (nhds (-0.8 * (1 + Real.tanh 1.25))) ∧
    Filter.Tendsto shape2 Filter.atTop (nhds (0.8 * (1 - Real.tanh 1.25))) := by
  have e : (5.0 : ℝ) * 0.25 = 1.25 := by norm_num
  have hfun : shape2 = fun x : ℝ => 0.8 * (Real.tanh (5.0 * (x + 0.25)) - Real.tanh 1.25) := by
    funext x
    simp only [shape2, e]
  have htop : Filter.Tendsto (fun x : ℝ => 5.0 * (x + 0.25)) Filter.atTop Filter.atTop :=
    (Filter.tendsto_atTop_add_const_right _ _ Filter.tendsto_id).const_mul_atTop
      (by norm_num)
  have hbot : Filter.Tendsto (fun x : ℝ => 5.0 * (x + 0.25)) Filter.atBot Filter.atBot :=
    (Filter.tendsto_atBot_add_const_right _ _ Filter.tendsto_id).const_mul_atBot
      (by norm_num)
  refine ⟨fun x => ?_, ?_, ?_⟩
  · have h1 := tanh_lt_one (5.0 * (x + 0.25))
    have h2 := neg_one_lt_tanh (5.0 * (x + 0.25))
    rw [hfun]
    constructor <;> nlinarith
  · rw [hfun]
    have h := ((tendsto_tanh_atBot.comp hbot).sub_const (Real.tanh 1.25)).const_mul 0.8
    have hv : (0.8 : ℝ) * (-1 - Real.tanh 1.25) = -0.8 * (1 + Real.tanh 1.25) := by ring
    rw [hv] at h
    exact h
  · rw [hfun]
    exact ((tendsto_tanh_atTop.comp htop).sub_const (Real.tanh 1.25)).const_mul 0.8

/-! ## Applying a factory preset -/

end

end FuzzCola
